import Mathlib

/-!
A shallow embedding of the reliability core of RAMCloud's FastTransport
(src/FastTransport.cc).  Pure functions model the state-mutating C++
methods: each takes the pre-state (plus the packet / clock inputs the
method reads) and returns the post-state together with the list of
observable outputs (packets handed to the driver, ready-queue pushes,
RPC completions).  Machine timestamps are modelled as Nat; the rpcId
field is a uint32 and its wraparound arithmetic is kept explicit as
% 2^32.  Timer bookkeeping (addTimer/removeTimer and the trailing
timer-scheduling pass of OutboundMessage::send) has no effect on any
property stated below and is not modelled.
-/

namespace RAMCloud

/-- Modelled from the spec: named protocol constant WINDOW_SIZE from
FastTransport.h, which is not under src/.  The spec fixes only the name. -/
def WINDOW_SIZE : Nat := 10

/-- Modelled from the spec: named protocol constant MAX_STAGING_FRAGMENTS
from FastTransport.h (not in src/); it is the staging-ring length and the
bit width of AckResponse.stagingVector is 32, matching it. -/
def MAX_STAGING_FRAGMENTS : Nat := 32

/-- Modelled from the spec: named protocol constant REQ_ACK_AFTER from
FastTransport.h (not in src/). -/
def REQ_ACK_AFTER : Nat := 5

/-- Modelled from the spec: named protocol constant TIMEOUT_NS from
FastTransport.h (not in src/). -/
def TIMEOUT_NS : Nat := 10000000

/-- Modelled from the spec: NUM_CHANNELS_PER_SESSION from FastTransport.h
(not in src/). -/
def NUM_CHANNELS_PER_SESSION : Nat := 8

/-- Modelled from the spec: MAX_NUM_CHANNELS_PER_SESSION from
FastTransport.h (not in src/). -/
def MAX_NUM_CHANNELS_PER_SESSION : Nat := 8

/-- Modelled from the spec: the ACKED sentinel stored in the sent-times
ring (FastTransport.h, not in src/): an all-ones 64-bit "timestamp". -/
def ACKED : Nat := 2 ^ 64 - 1

/-- INVALID_TOKEN, from FastTransport.cc lines 960 and 1257. -/
def INVALID_TOKEN : Nat := 0xcccccccccccccccc

/-- INVALID_HINT, from FastTransport.cc lines 962 and 1259. -/
def INVALID_HINT : Nat := 0xcccccccc

/-- Modelled from the spec: the length of OutboundMessage::sentTimes
(declared in FastTransport.h, not in src/).  send() touches ring indices
up to MAX_STAGING_FRAGMENTS (its stop bound is
firstMissingFrag + MAX_STAGING_FRAGMENTS + 1) and
processReceivedAck's bit loop runs to ring.length() - 1 while the
32-bit stagingVector covers MAX_STAGING_FRAGMENTS bits, so the ring
holds MAX_STAGING_FRAGMENTS + 1 entries. -/
def sentTimesRingLength : Nat := MAX_STAGING_FRAGMENTS + 1

/-- Header::payloadType values used by FastTransport.cc. -/
inductive PayloadType
  | DATA
  | ACK
  | SESSION_OPEN
  | BAD_SESSION
deriving Repr, DecidableEq, Inhabited

/-- Header::direction. -/
inductive Direction
  | CLIENT_TO_SERVER
  | SERVER_TO_CLIENT
deriving Repr, DecidableEq, Inhabited

/-- The wire header present on every datagram.  Bit-level layout is not
modelled; each field is a plain value.  Fields a C++ code path leaves
uninitialized are given zero values by the model. -/
structure Header where
  sessionToken : Nat
  rpcId : Nat
  clientSessionHint : Nat
  serverSessionHint : Nat
  fragNumber : Nat
  totalFrags : Nat
  requestAck : Bool
  pleaseDrop : Bool
  channelId : Nat
  direction : Direction
  payloadType : PayloadType
deriving Repr, DecidableEq, Inhabited

/-- The ACK payload: firstMissingFrag plus a 32-bit selective-ack vector. -/
structure AckResponse where
  firstMissingFrag : Nat
  stagingVector : Nat
deriving Repr, DecidableEq, Inhabited

/-- The bytes following the header, already parsed by payload kind
(Driver::Received::getOffset is a bounds-checked reinterpretation). -/
inductive PacketBody
  | data (bytes : List Nat)
  | ack (a : AckResponse)
  | sessionOpen (maxChannelId : Nat)
  | empty
deriving Repr, DecidableEq, Inhabited

/-- A received datagram: header plus payload. -/
structure Packet where
  header : Header
  body : PacketBody
deriving Repr, DecidableEq, Inhabited

/-- The DATA payload bytes of a packet (empty for non-DATA bodies). -/
def Packet.dataBytes (p : Packet) : List Nat :=
  match p.body with
  | PacketBody.data b => b
  | _ => []

/-- The parse received->getOffset<AckResponse>(sizeof(Header)) performs. -/
def Packet.ackResponse (p : Packet) : AckResponse :=
  match p.body with
  | PacketBody.ack a => a
  | _ => { firstMissingFrag := 0, stagingVector := 0 }

/-- The parse of a SessionOpenResponse payload. -/
def Packet.sessionOpenMaxChannelId (p : Packet) : Nat :=
  match p.body with
  | PacketBody.sessionOpen mc => mc
  | _ => 0

/-- Modelled from the spec: Ring<T, N>::advance(k) from FastTransport.h
(not in src/).  The ring is a fixed-length window; advancing by k shifts
every slot down by k and resets the k vacated tail slots to the default
value.  The length of the list never changes. -/
def ringAdvance {α : Type} (d : α) (xs : List α) (k : Nat) : List α :=
  xs.drop k ++ List.replicate (min k xs.length) d

-- --- OutboundMessage ---

/-- OutboundMessage state (FastTransport.cc lines 712-956).  The source
buffer is represented by its byte length (only its length reaches the
fragmentation logic); sentTimes is the send-timestamp ring (0 = never
sent since the last clear/advance, ACKED = selectively acknowledged,
anything else = last send time). -/
structure OutboundMessage where
  sendBuffer : Option Nat
  firstMissingFrag : Nat
  totalFrags : Nat
  packetsSinceAckReq : Nat
  sentTimes : List Nat
  numAcked : Nat
deriving Repr, DecidableEq, Inhabited

/-- The candidate-range bound of OutboundMessage::send (lines 827-832):
stop = min(totalFrags, numAcked + WINDOW_SIZE,
firstMissingFrag + MAX_STAGING_FRAGMENTS + 1). -/
def OutboundMessage.stop (m : OutboundMessage) : Nat :=
  min m.totalFrags (min (m.numAcked + WINDOW_SIZE)
    (m.firstMissingFrag + MAX_STAGING_FRAGMENTS + 1))

/-- The fragment loop of OutboundMessage::send (lines 835-853), iterated
over the candidate ring indices in increasing order.  Each transmitted
fragment is recorded as (fragNumber, requestAck); sendOneData's
packetsSinceAckReq update (lines 952-955) is inlined.  A retransmitted
fragment terminates the loop. -/
def sendLoop (now : Nat) : OutboundMessage → List Nat →
    OutboundMessage × List (Nat × Bool)
  | m, [] => (m, [])
  | m, i :: rest =>
    let sentTime := m.sentTimes.getD i 0
    if sentTime = ACKED ∨ (sentTime ≠ 0 ∧ sentTime + TIMEOUT_NS ≥ now) then
      sendLoop now m rest
    else
      let fragNumber := m.firstMissingFrag + i
      let requestAck : Bool :=
        decide (sentTime ≠ 0) ||
          (decide (m.packetsSinceAckReq = REQ_ACK_AFTER - 1) &&
           decide (fragNumber ≠ m.totalFrags - 1))
      let m1 : OutboundMessage :=
        { m with sentTimes := m.sentTimes.set i now,
                 packetsSinceAckReq :=
                   if requestAck then 0 else m.packetsSinceAckReq + 1 }
      if sentTime ≠ 0 then (m1, [(fragNumber, requestAck)])
      else
        let r := sendLoop now m1 rest
        (r.1, (fragNumber, requestAck) :: r.2)

/-- OutboundMessage::send (lines 819-871).  The trailing
timer-scheduling pass (lines 857-870) only touches the timer and is not
modelled. -/
def OutboundMessage.send (m : OutboundMessage) (now : Nat) :
    OutboundMessage × List (Nat × Bool) :=
  sendLoop now m (List.range (m.stop - m.firstMissingFrag))

/-- One iteration of the selective-ack bit loop of
OutboundMessage::processReceivedAck (lines 910-916): if bit i is set,
mark slot i + 1 ACKED and count it into numAcked. -/
def ackBitStep (stagingVector : Nat) (p : List Nat × Nat) (i : Nat) :
    List Nat × Nat :=
  if stagingVector.testBit i then (p.1.set (i + 1) ACKED, p.2 + 1) else p

/-- The selective-ack bit loop (lines 910-916), folded over bit indices
0 to ring length - 2. -/
def applyAckBits (stagingVector : Nat) (st : List Nat) (numAcked : Nat) :
    List Nat × Nat :=
  (List.range (st.length - 1)).foldl (ackBitStep stagingVector) (st, numAcked)

/-- OutboundMessage::processReceivedAck (lines 887-920).  Returns the
post-state, the fragments transmitted by the trailing send() call, and
the completion result. -/
def OutboundMessage.processReceivedAck (m : OutboundMessage)
    (ack : AckResponse) (now : Nat) :
    OutboundMessage × List (Nat × Bool) × Bool :=
  if m.sendBuffer.isNone then (m, [], false)
  else
    let m1 :=
      if ack.firstMissingFrag < m.firstMissingFrag then m
      else if m.totalFrags < ack.firstMissingFrag then m
      else if m.firstMissingFrag + m.sentTimes.length < ack.firstMissingFrag then m
      else
        let st1 := ringAdvance 0 m.sentTimes (ack.firstMissingFrag - m.firstMissingFrag)
        let p := applyAckBits ack.stagingVector st1 ack.firstMissingFrag
        { m with sentTimes := p.1,
                 firstMissingFrag := ack.firstMissingFrag,
                 numAcked := p.2 }
    let r := m1.send now
    (r.1, r.2, r.1.firstMissingFrag == r.1.totalFrags)

/-- OutboundMessage::clear (lines 770-783); ring clear keeps the ring
length and resets every slot to 0, timer fields are not modelled. -/
def OutboundMessage.clear (m : OutboundMessage) : OutboundMessage :=
  { m with sendBuffer := none,
           firstMissingFrag := 0,
           totalFrags := 0,
           packetsSinceAckReq := 0,
           sentTimes := List.replicate m.sentTimes.length 0,
           numAcked := 0 }

/-- OutboundMessage::beginSending (lines 792-799) together with
FastTransport::numFrags (lines 151-156): totalFrags is the ceiling of
the buffer length over dataPerFragment; requires sendBuffer = none
(the source asserts it). -/
def OutboundMessage.beginSending (m : OutboundMessage)
    (bufLen dataPerFragment now : Nat) :
    OutboundMessage × List (Nat × Bool) :=
  let m1 := { m with sendBuffer := some bufLen,
                     totalFrags := (bufLen + dataPerFragment - 1) / dataPerFragment }
  m1.send now

-- --- InboundMessage ---

/-- InboundMessage state (FastTransport.cc lines 480-710).  The staging
ring slot holds the stolen fragment's data bytes when occupied; the
reassembled buffer is the list of appended fragment payloads. -/
structure InboundMessage where
  totalFrags : Nat
  firstMissingFrag : Nat
  dataStagingRing : List (Option (List Nat))
  dataBuffer : List (List Nat)
deriving Repr, DecidableEq, Inhabited

/-- InboundMessage::clear (lines 575-590): releasing staged payloads to
the driver empties every ring slot; the buffer pointer is dropped. -/
def InboundMessage.clear (m : InboundMessage) : InboundMessage :=
  { m with totalFrags := 0,
           firstMissingFrag := 0,
           dataBuffer := [],
           dataStagingRing := List.replicate m.dataStagingRing.length none }

/-- InboundMessage::init (lines 603-612): clear, then adopt the expected
totalFrags and a fresh (empty) data buffer. -/
def InboundMessage.init (m : InboundMessage) (totalFrags : Nat) : InboundMessage :=
  { m.clear with totalFrags := totalFrags }

/-- The stagingVector computation of InboundMessage::sendAck (lines
554-558): bit i is set iff ring slot i holds a payload. -/
def InboundMessage.sendAckVector (m : InboundMessage) : Nat :=
  (List.range m.dataStagingRing.length).foldl
    (fun acc i => if (m.dataStagingRing.getD i none).isSome then acc ||| (1 <<< i) else acc) 0

/-- InboundMessage::sendAck (lines 545-566): the session fills the
header (the filled argument), payloadType is overwritten with ACK, and
the payload is an AckResponse carrying firstMissingFrag and the
staging-vector bits. -/
def InboundMessage.sendAck (m : InboundMessage) (filled : Header) :
    Header × AckResponse :=
  ({ filled with payloadType := PayloadType.ACK },
   { firstMissingFrag := m.firstMissingFrag, stagingVector := m.sendAckVector })

/-- The while loop of InboundMessage::processReceivedData (lines
666-681): repeatedly read ring slot 0, advance the ring by one (which
clears the vacated slot), and append the staged payload if the slot was
occupied, stopping at the first empty slot.  In the source the loop
needs at most ring-occupancy + 1 iterations because advance(1) clears
the slot it vacates; the fuel argument is instantiated with
ring length + 1, which bounds that. -/
def drainLoop : Nat → InboundMessage → InboundMessage
  | 0, m => m
  | fuel + 1, m =>
    let slot := m.dataStagingRing.getD 0 none
    let m1 := { m with dataStagingRing := ringAdvance none m.dataStagingRing 1 }
    match slot with
    | none => m1
    | some payload =>
      drainLoop fuel { m1 with dataBuffer := m1.dataBuffer ++ [payload],
                               firstMissingFrag := m1.firstMissingFrag + 1 }

/-- InboundMessage::processReceivedData (lines 644-710).  Returns the
post-state, the ACKs transmitted (each as sendAck's header/payload
pair), and the completion result.  The timer rescheduling (lines
706-707) is not modelled. -/
def InboundMessage.processReceivedData (m : InboundMessage) (p : Packet)
    (filled : Header) :
    InboundMessage × List (Header × AckResponse) × Bool :=
  if p.header.totalFrags ≠ m.totalFrags then
    (m, [], m.firstMissingFrag == m.totalFrags)
  else
    let m1 :=
      if p.header.fragNumber = m.firstMissingFrag then
        drainLoop (m.dataStagingRing.length + 1)
          { m with dataBuffer := m.dataBuffer ++ [p.dataBytes],
                   firstMissingFrag := m.firstMissingFrag + 1 }
      else if m.firstMissingFrag < p.header.fragNumber then
        if MAX_STAGING_FRAGMENTS < p.header.fragNumber - m.firstMissingFrag then m
        else
          let i := p.header.fragNumber - m.firstMissingFrag - 1
          if (m.dataStagingRing.getD i none).isSome then m
          else { m with dataStagingRing := m.dataStagingRing.set i (some p.dataBytes) }
      else m
    let acks := if p.header.requestAck then [m1.sendAck filled] else []
    (m1, acks, m1.firstMissingFrag == m1.totalFrags)

-- --- Sessions ---

/-- The observable outputs a session operation produces: packets handed
to the driver, ready-queue insertions, and RPC completion marks. -/
inductive Event
  | sendAck (h : Header) (a : AckResponse)
  | sendData (fragNumber : Nat) (requestAck : Bool)
  | sendSessionOpenReq (addr : Nat) (h : Header)
  | enqueueReady (channelId : Nat)
  | rpcCompleted (tag : Nat)
deriving Repr, DecidableEq, Inhabited

/-- ServerChannel::state (declared in FastTransport.h; transitions all
live in FastTransport.cc). -/
inductive ServerChannelState
  | IDLE
  | RECEIVING
  | PROCESSING
  | SENDING_WAITING
deriving Repr, DecidableEq, Inhabited

/-- A server-side channel.  The ServerRpc object is represented by its
presence (its receive payload is the inbound message's dataBuffer). -/
structure ServerChannel where
  state : ServerChannelState
  rpcId : Nat
  currentRpc : Option Unit
  inboundMsg : InboundMessage
  outboundMsg : OutboundMessage
deriving Repr, DecidableEq, Inhabited

/-- ServerSession state (FastTransport.cc lines 958-1253).  Addresses
are abstract naturals. -/
structure ServerSession where
  id : Nat
  channels : List ServerChannel
  token : Nat
  clientSessionHint : Nat
  clientAddress : Nat
  lastActivityTime : Nat
deriving Repr, DecidableEq, Inhabited

/-- ServerSession::fillHeader (lines 1050-1060).  Fields fillHeader does
not write (fragNumber, totalFrags, requestAck, pleaseDrop, payloadType)
are given zero/DATA defaults; every caller that transmits overwrites the
ones it needs. -/
def ServerSession.fillHeader (s : ServerSession) (channelId : Nat) : Header :=
  { rpcId := (s.channels.getD channelId default).rpcId,
    channelId := channelId,
    direction := Direction.SERVER_TO_CLIENT,
    clientSessionHint := s.clientSessionHint,
    serverSessionHint := s.id,
    sessionToken := s.token,
    fragNumber := 0, totalFrags := 0,
    requestAck := false, pleaseDrop := false,
    payloadType := PayloadType.DATA }

/-- ServerSession::processReceivedData (lines 1226-1253): route a DATA
fragment by channel state; a completed request goes on the transport's
ready queue and the channel moves to PROCESSING. -/
def ServerSession.processReceivedDataCh (s : ServerSession) (cid : Nat)
    (p : Packet) (now : Nat) : ServerSession × List Event :=
  let ch := s.channels.getD cid default
  match ch.state with
  | ServerChannelState.IDLE => (s, [])
  | ServerChannelState.RECEIVING =>
    let r := ch.inboundMsg.processReceivedData p (s.fillHeader cid)
    let ch1 := { ch with
                 inboundMsg := r.1,
                 state := if r.2.2 then ServerChannelState.PROCESSING else ch.state }
    ({ s with channels := s.channels.set cid ch1 },
     r.2.1.map (fun a => Event.sendAck a.1 a.2) ++
       (if r.2.2 then [Event.enqueueReady cid] else []))
  | ServerChannelState.PROCESSING =>
    if p.header.requestAck then
      let a := ch.inboundMsg.sendAck (s.fillHeader cid)
      (s, [Event.sendAck a.1 a.2])
    else (s, [])
  | ServerChannelState.SENDING_WAITING =>
    let r := ch.outboundMsg.send now
    ({ s with channels := s.channels.set cid { ch with outboundMsg := r.1 } },
     r.2.map (fun x => Event.sendData x.1 x.2))

/-- ServerSession::processReceivedAck (lines 1203-1209): only a channel
in SENDING_WAITING forwards the ACK to its outbound message. -/
def ServerSession.processReceivedAckCh (s : ServerSession) (cid : Nat)
    (p : Packet) (now : Nat) : ServerSession × List Event :=
  let ch := s.channels.getD cid default
  if ch.state = ServerChannelState.SENDING_WAITING then
    let r := ch.outboundMsg.processReceivedAck p.ackResponse now
    ({ s with channels := s.channels.set cid { ch with outboundMsg := r.1 } },
     r.2.1.map (fun x => Event.sendData x.1 x.2))
  else (s, [])

/-- ServerSession::processInboundPacket (lines 1096-1146): route by
channel id, then dispatch on whether the packet's rpcId matches the
channel's current RPC or is the uint32 successor starting a new RPC. -/
def ServerSession.processInboundPacket (s : ServerSession) (p : Packet)
    (now : Nat) : ServerSession × List Event :=
  let s0 := { s with lastActivityTime := now }
  if NUM_CHANNELS_PER_SESSION ≤ p.header.channelId then (s0, [])
  else
    let cid := p.header.channelId
    let ch := s0.channels.getD cid default
    if ch.rpcId = p.header.rpcId then
      if p.header.payloadType = PayloadType.DATA then
        s0.processReceivedDataCh cid p now
      else if p.header.payloadType = PayloadType.ACK then
        s0.processReceivedAckCh cid p now
      else (s0, [])
    else if (ch.rpcId + 1) % 2 ^ 32 = p.header.rpcId then
      if p.header.payloadType = PayloadType.DATA then
        let ch1 := { ch with state := ServerChannelState.RECEIVING,
                             rpcId := p.header.rpcId,
                             outboundMsg := ch.outboundMsg.clear,
                             currentRpc := some (),
                             inboundMsg := ch.inboundMsg.init p.header.totalFrags }
        let s1 := { s0 with channels := s0.channels.set cid ch1 }
        s1.processReceivedDataCh cid p now
      else (s0, [])
    else (s0, [])

/-- ServerSession::expire (lines 1019-1047): refuse if any channel is
PROCESSING; otherwise reset every non-IDLE channel (rpcId becomes the
all-ones uint32) and invalidate the session. -/
def ServerSession.expire (s : ServerSession) : ServerSession × Bool :=
  if s.lastActivityTime = 0 then (s, true)
  else if s.channels.any (fun ch => ch.state == ServerChannelState.PROCESSING) then
    (s, false)
  else
    let resetCh := fun (ch : ServerChannel) =>
      if ch.state = ServerChannelState.IDLE then ch
      else { ch with
             state := ServerChannelState.IDLE,
             rpcId := 2 ^ 32 - 1,
             currentRpc := none,
             inboundMsg := ch.inboundMsg.clear,
             outboundMsg := ch.outboundMsg.clear }
    ({ s with
       channels := s.channels.map resetCh,
       token := INVALID_TOKEN,
       clientSessionHint := INVALID_HINT,
       lastActivityTime := 0 }, true)

/-- ClientChannel::state. -/
inductive ClientChannelState
  | IDLE
  | SENDING
  | RECEIVING
deriving Repr, DecidableEq, Inhabited

/-- A ClientRpc as the client session sees it: an identifying tag plus
the request buffer's byte length (all the fragmentation logic reads). -/
structure ClientRpcM where
  tag : Nat
  requestLen : Nat
deriving Repr, DecidableEq, Inhabited

/-- A client-side channel. -/
structure ClientChannel where
  state : ClientChannelState
  rpcId : Nat
  currentRpc : Option ClientRpcM
  inboundMsg : InboundMessage
  outboundMsg : OutboundMessage
deriving Repr, DecidableEq, Inhabited

/-- Modelled from the spec: the post-setup state of a freshly allocated
ClientChannel (ClientChannel::setup lives in FastTransport.h, not in
src/): IDLE, rpcId 0, no RPC, cleared messages with full-size rings. -/
def ClientChannel.fresh : ClientChannel :=
  { state := ClientChannelState.IDLE,
    rpcId := 0,
    currentRpc := none,
    inboundMsg := { totalFrags := 0, firstMissingFrag := 0,
                    dataStagingRing := List.replicate MAX_STAGING_FRAGMENTS none,
                    dataBuffer := [] },
    outboundMsg := { sendBuffer := none, firstMissingFrag := 0, totalFrags := 0,
                     packetsSinceAckReq := 0,
                     sentTimes := List.replicate sentTimesRingLength 0,
                     numAcked := 0 } }

/-- ClientSession state (FastTransport.cc lines 1255-1631).  numChannels
is the length of the channels list (0 = not connected). -/
structure ClientSession where
  id : Nat
  channels : List ClientChannel
  channelQueue : List ClientRpcM
  token : Nat
  serverSessionHint : Nat
  serverAddress : Nat
  lastActivityTime : Nat
deriving Repr, DecidableEq, Inhabited

/-- ClientSession::fillHeader (lines 1360-1370), with the same zero
defaults for the fields it does not write as the server variant. -/
def ClientSession.fillHeader (s : ClientSession) (channelId : Nat) : Header :=
  { rpcId := (s.channels.getD channelId default).rpcId,
    channelId := channelId,
    direction := Direction.CLIENT_TO_SERVER,
    clientSessionHint := s.id,
    serverSessionHint := s.serverSessionHint,
    sessionToken := s.token,
    fragNumber := 0, totalFrags := 0,
    requestAck := false, pleaseDrop := false,
    payloadType := PayloadType.DATA }

/-- ClientSession::connect (lines 1317-1343): optionally record a new
server address, then emit a SESSION_OPEN request stamped with the
session's current hint/token state. -/
def ClientSession.connect (s : ClientSession) (newAddr : Option Nat)
    (now : Nat) : ClientSession × List Event :=
  let s1 := match newAddr with
            | some a => { s with serverAddress := a }
            | none => s
  let h : Header :=
    { sessionToken := s1.token, rpcId := 0,
      clientSessionHint := s1.id, serverSessionHint := s1.serverSessionHint,
      fragNumber := 0, totalFrags := 0,
      requestAck := false, pleaseDrop := false, channelId := 0,
      direction := Direction.CLIENT_TO_SERVER,
      payloadType := PayloadType.SESSION_OPEN }
  ({ s1 with lastActivityTime := now },
   [Event.sendSessionOpenReq s1.serverAddress h])

/-- The channel-draining loop of processSessionOpenResponse (lines
1621-1630): assign queued RPCs to channels in index order until the
queue runs dry, starting each one's outbound message. -/
def ClientSession.assignFromQueue (dpf now : Nat) :
    List Nat → ClientSession → ClientSession × List Event
  | [], s => (s, [])
  | i :: rest, s =>
    match s.channelQueue with
    | [] => (s, [])
    | rpc :: q =>
      let ch := s.channels.getD i default
      let b := ch.outboundMsg.beginSending rpc.requestLen dpf now
      let ch1 := { ch with
                   state := ClientChannelState.SENDING,
                   currentRpc := some rpc,
                   outboundMsg := b.1 }
      let s1 := { s with
                  channelQueue := q,
                  channels := s.channels.set i ch1 }
      let r := ClientSession.assignFromQueue dpf now rest s1
      (r.1, b.2.map (fun x => Event.sendData x.1 x.2) ++ r.2)

/-- ClientSession::processSessionOpenResponse (lines 1603-1631):
idempotent once connected; otherwise record the server's hint and
token, allocate min(maxChannelId + 1, MAX_NUM_CHANNELS_PER_SESSION)
fresh channels and drain the queue onto them. -/
def ClientSession.processSessionOpenResponse (s : ClientSession)
    (p : Packet) (now dpf : Nat) : ClientSession × List Event :=
  if 0 < s.channels.length then (s, [])
  else
    let n := min (p.sessionOpenMaxChannelId + 1) MAX_NUM_CHANNELS_PER_SESSION
    let s1 := { s with serverSessionHint := p.header.serverSessionHint,
                       token := p.header.sessionToken,
                       channels := List.replicate n ClientChannel.fresh }
    ClientSession.assignFromQueue dpf now (List.range n) s1

/-- ClientSession::processReceivedData (lines 1560-1593): a SENDING
channel flips to RECEIVING (clearing its outbound message and
initializing the inbound one from the first response fragment); on
completion the RPC is completed, rpcId is bumped (uint32), both
messages are cleared and the next queued RPC, if any, starts. -/
def ClientSession.processReceivedDataCh (s : ClientSession) (cid : Nat)
    (p : Packet) (now dpf : Nat) : ClientSession × List Event :=
  let ch := s.channels.getD cid default
  if ch.state = ClientChannelState.IDLE then (s, [])
  else
    let ch0 := if ch.state = ClientChannelState.SENDING then
        { ch with outboundMsg := ch.outboundMsg.clear,
                  inboundMsg := ch.inboundMsg.init p.header.totalFrags,
                  state := ClientChannelState.RECEIVING }
      else ch
    let s0 := { s with channels := s.channels.set cid ch0 }
    let r := ch0.inboundMsg.processReceivedData p (s0.fillHeader cid)
    let ackEvents := r.2.1.map (fun a => Event.sendAck a.1 a.2)
    if r.2.2 then
      let doneEvents := match ch0.currentRpc with
                        | some rpc => [Event.rpcCompleted rpc.tag]
                        | none => []
      let ch1 := { ch0 with rpcId := (ch0.rpcId + 1) % 2 ^ 32,
                            outboundMsg := ch0.outboundMsg.clear,
                            inboundMsg := r.1.clear }
      match s0.channelQueue with
      | [] =>
        let chIdle := { ch1 with
                        state := ClientChannelState.IDLE,
                        currentRpc := none }
        ({ s0 with channels := s0.channels.set cid chIdle },
         ackEvents ++ doneEvents)
      | rpc :: q =>
        let b := ch1.outboundMsg.beginSending rpc.requestLen dpf now
        let chNext := { ch1 with
                        state := ClientChannelState.SENDING,
                        currentRpc := some rpc,
                        outboundMsg := b.1 }
        ({ s0 with
           channelQueue := q,
           channels := s0.channels.set cid chNext },
         ackEvents ++ doneEvents ++ b.2.map (fun x => Event.sendData x.1 x.2))
    else
      ({ s0 with channels := s0.channels.set cid { ch0 with inboundMsg := r.1 } },
       ackEvents)

/-- ClientSession::processReceivedAck (lines 1535-1541): only a SENDING
channel forwards the ACK to its outbound message. -/
def ClientSession.processReceivedAckCh (s : ClientSession) (cid : Nat)
    (p : Packet) (now : Nat) : ClientSession × List Event :=
  let ch := s.channels.getD cid default
  if ch.state = ClientChannelState.SENDING then
    let r := ch.outboundMsg.processReceivedAck p.ackResponse now
    ({ s with channels := s.channels.set cid { ch with outboundMsg := r.1 } },
     r.2.1.map (fun x => Event.sendData x.1 x.2))
  else (s, [])

/-- ClientSession::processInboundPacket (lines 1405-1453).  An
out-of-range channel id only admits a SESSION_OPEN response; a matching
rpcId dispatches DATA, ACK or BAD_SESSION; BAD_SESSION re-enqueues
every executing RPC, clears the channels, invalidates hint and token,
and reconnects to the stored address. -/
def ClientSession.processInboundPacket (s : ClientSession) (p : Packet)
    (now dpf : Nat) : ClientSession × List Event :=
  let s0 := { s with lastActivityTime := now }
  if s0.channels.length ≤ p.header.channelId then
    if p.header.payloadType = PayloadType.SESSION_OPEN then
      s0.processSessionOpenResponse p now dpf
    else (s0, [])
  else
    let cid := p.header.channelId
    let ch := s0.channels.getD cid default
    if ch.rpcId = p.header.rpcId then
      if p.header.payloadType = PayloadType.DATA then
        s0.processReceivedDataCh cid p now dpf
      else if p.header.payloadType = PayloadType.ACK then
        s0.processReceivedAckCh cid p now
      else if p.header.payloadType = PayloadType.BAD_SESSION then
        let requeued := s0.channels.filterMap (fun c => c.currentRpc)
        let s1 := { s0 with
                    channelQueue := s0.channelQueue ++ requeued,
                    channels := [],
                    serverSessionHint := INVALID_HINT,
                    token := INVALID_TOKEN }
        s1.connect none now
      else (s0, [])
    else (s0, [])

-- --- Transport dispatcher ---

/-- The dispatch decision FastTransport::tryProcessPacket makes for one
received packet (lines 217-282).  The server session table is abstracted
to the list of its sessions' tokens (indexed by hint) and the client
table to its size; the delivery into a session and the side effects of
opening one are outside this decision. -/
inductive DispatchResult
  | dropPleaseDrop
  | deliverServer (hint : Nat)
  | openNewSession
  | replyBadSession (reply : Header)
  | deliverClient (hint : Nat)
  | dropBadClientHint
deriving Repr, DecidableEq, Inhabited

/-- FastTransport::tryProcessPacket's routing (lines 236-281): an
in-range server hint with a matching token delivers to that session;
otherwise a SESSION_OPEN packet opens a new session and anything else
gets a BAD_SESSION reply echoing the offending header's token, rpcId,
hints and channel id. -/
def tryProcessPacket (serverTokens : List Nat) (numClientSessions : Nat)
    (h : Header) : DispatchResult :=
  if h.pleaseDrop then DispatchResult.dropPleaseDrop
  else if h.direction = Direction.CLIENT_TO_SERVER then
    if h.serverSessionHint < serverTokens.length ∧
        serverTokens.getD h.serverSessionHint 0 = h.sessionToken then
      DispatchResult.deliverServer h.serverSessionHint
    else if h.payloadType = PayloadType.SESSION_OPEN then
      DispatchResult.openNewSession
    else
      DispatchResult.replyBadSession
        { sessionToken := h.sessionToken,
          rpcId := h.rpcId,
          clientSessionHint := h.clientSessionHint,
          serverSessionHint := h.serverSessionHint,
          channelId := h.channelId,
          payloadType := PayloadType.BAD_SESSION,
          direction := Direction.SERVER_TO_CLIENT,
          fragNumber := 0, totalFrags := 0,
          requestAck := false, pleaseDrop := false }
  else
    if h.clientSessionHint < numClientSessions then
      DispatchResult.deliverClient h.clientSessionHint
    else DispatchResult.dropBadClientHint

/-- Whether a dispatch decision is a BAD_SESSION reply. -/
def DispatchResult.isBadSessionReply : DispatchResult → Bool
  | DispatchResult.replyBadSession _ => true
  | _ => false

-- --- clientSend ---

/-- A Buffer's byte contents. -/
abbrev Buffer := List Nat

/-- Buffer::truncateFront(n): remove the first n bytes. -/
def Buffer.truncateFront (b : Buffer) (n : Nat) : Buffer := b.drop n

/-- The response-buffer preparation at the top of
FastTransport::clientSend (lines 49-63): a non-empty response buffer is
truncated from the front by its whole length before the RPC starts. -/
def clientSendPrepareResponse (response : Buffer) : Buffer :=
  let length := response.length
  if length ≠ 0 then response.truncateFront length else response

-- --- Helper lemmas ---

theorem getD_set_of_ne {α : Type} {xs : List α} {i j : Nat} (v d : α)
    (h : i ≠ j) : (xs.set i v).getD j d = xs.getD j d := by
  simp [List.getD_eq_getElem?_getD, List.getElem?_set_ne h]

theorem getD_set_cases {α : Type} (xs : List α) (i j : Nat) (v d : α) :
    (xs.set i v).getD j d = v ∨ (xs.set i v).getD j d = xs.getD j d := by
  by_cases h : i = j
  · subst h
    by_cases hl : i < xs.length
    · left; simp [List.getD_eq_getElem?_getD, List.getElem?_set, hl]
    · right
      simp [List.getD_eq_getElem?_getD, List.getElem?_set, hl,
        List.getElem?_eq_none (Nat.le_of_not_lt hl)]
  · right; exact getD_set_of_ne v d h

theorem getD_replicate_self {α : Type} (n j : Nat) (d : α) :
    (List.replicate n d).getD j d = d := by
  rw [List.getD_eq_getElem?_getD]
  by_cases h : j < n
  · simp [List.getElem?_replicate, h]
  · simp [List.getElem?_replicate, h]

theorem ringAdvance_length {α : Type} (d : α) (xs : List α) (k : Nat) :
    (ringAdvance d xs k).length = xs.length := by
  simp only [ringAdvance, List.length_append, List.length_drop,
    List.length_replicate]
  omega

theorem ringAdvance_getD {α : Type} (d : α) (xs : List α) (k j : Nat) :
    (ringAdvance d xs k).getD j d =
      if j < xs.length - k then xs.getD (j + k) d else d := by
  rw [List.getD_eq_getElem?_getD]
  simp only [ringAdvance, List.getElem?_append, List.length_drop,
    List.getElem?_drop]
  by_cases h : j < xs.length - k
  · rw [if_pos h, if_pos h, Nat.add_comm k j, List.getD_eq_getElem?_getD]
  · rw [if_neg h, if_neg h]
    by_cases h2 : j - (xs.length - k) < min k xs.length
    · simp [List.getElem?_replicate, h2]
    · simp [List.getElem?_replicate, h2]

theorem sendLoop_state (now : Nat) (idxs : List Nat) (m : OutboundMessage) :
    (sendLoop now m idxs).1.firstMissingFrag = m.firstMissingFrag ∧
    (sendLoop now m idxs).1.numAcked = m.numAcked ∧
    (sendLoop now m idxs).1.totalFrags = m.totalFrags ∧
    (sendLoop now m idxs).1.sendBuffer = m.sendBuffer := by
  induction idxs generalizing m with
  | nil => simp [sendLoop]
  | cons i rest ih =>
    simp only [sendLoop]
    by_cases hc : m.sentTimes.getD i 0 = ACKED ∨
        (m.sentTimes.getD i 0 ≠ 0 ∧ m.sentTimes.getD i 0 + TIMEOUT_NS ≥ now)
    · rw [if_pos hc]; exact ih m
    · rw [if_neg hc]
      by_cases hrt : m.sentTimes.getD i 0 ≠ 0
      · rw [if_pos hrt]
        exact ⟨rfl, rfl, rfl, rfl⟩
      · rw [if_neg hrt]
        exact ⟨(ih _).1, (ih _).2.1, (ih _).2.2.1, (ih _).2.2.2⟩

theorem sendLoop_sentTimes_length (now : Nat) (idxs : List Nat)
    (m : OutboundMessage) :
    (sendLoop now m idxs).1.sentTimes.length = m.sentTimes.length := by
  induction idxs generalizing m with
  | nil => simp [sendLoop]
  | cons i rest ih =>
    simp only [sendLoop]
    by_cases hc : m.sentTimes.getD i 0 = ACKED ∨
        (m.sentTimes.getD i 0 ≠ 0 ∧ m.sentTimes.getD i 0 + TIMEOUT_NS ≥ now)
    · rw [if_pos hc]; exact ih m
    · rw [if_neg hc]
      by_cases hrt : m.sentTimes.getD i 0 ≠ 0
      · rw [if_pos hrt]
        simp [List.length_set]
      · rw [if_neg hrt]
        dsimp only
        rw [ih]
        simp [List.length_set]


theorem sendLoop_mem_frag (now : Nat) (idxs : List Nat) (m : OutboundMessage) :
    ∀ x ∈ (sendLoop now m idxs).2, ∃ j ∈ idxs, x.1 = m.firstMissingFrag + j := by
  induction idxs generalizing m with
  | nil => simp [sendLoop]
  | cons i rest ih =>
    simp only [sendLoop]
    by_cases hc : m.sentTimes.getD i 0 = ACKED ∨
        (m.sentTimes.getD i 0 ≠ 0 ∧ m.sentTimes.getD i 0 + TIMEOUT_NS ≥ now)
    · rw [if_pos hc]
      intro x hx
      obtain ⟨j, hj, hxj⟩ := ih m x hx
      exact ⟨j, List.mem_cons_of_mem _ hj, hxj⟩
    · rw [if_neg hc]
      by_cases hrt : m.sentTimes.getD i 0 ≠ 0
      · rw [if_pos hrt]
        intro x hx
        simp only [List.mem_singleton] at hx
        exact ⟨i, List.mem_cons_self _ _, by rw [hx]⟩
      · rw [if_neg hrt]
        intro x hx
        dsimp only at hx
        rcases List.mem_cons.mp hx with h | h
        · exact ⟨i, List.mem_cons_self _ _, by rw [h]⟩
        · obtain ⟨j, hj, hxj⟩ := ih _ x h
          exact ⟨j, List.mem_cons_of_mem _ hj, hxj⟩

theorem sendLoop_skip_not_mem (now : Nat) (idxs : List Nat)
    (m : OutboundMessage) (i : Nat)
    (hskip : m.sentTimes.getD i 0 = ACKED ∨
      (m.sentTimes.getD i 0 ≠ 0 ∧ m.sentTimes.getD i 0 + TIMEOUT_NS ≥ now)) :
    ∀ ra, (m.firstMissingFrag + i, ra) ∉ (sendLoop now m idxs).2 := by
  induction idxs generalizing m with
  | nil => simp [sendLoop]
  | cons j rest ih =>
    simp only [sendLoop]
    by_cases hc : m.sentTimes.getD j 0 = ACKED ∨
        (m.sentTimes.getD j 0 ≠ 0 ∧ m.sentTimes.getD j 0 + TIMEOUT_NS ≥ now)
    · rw [if_pos hc]; exact ih m hskip
    · rw [if_neg hc]
      have hij : i ≠ j := fun he => hc (he ▸ hskip)
      by_cases hrt : m.sentTimes.getD j 0 ≠ 0
      · rw [if_pos hrt]
        intro ra hmem
        simp only [List.mem_singleton, Prod.mk.injEq] at hmem
        exact hij (by omega)
      · rw [if_neg hrt]
        intro ra hmem
        dsimp only at hmem
        rcases List.mem_cons.mp hmem with h | h
        · simp only [Prod.mk.injEq] at h
          exact hij (by omega)
        · have hskip1 : (m.sentTimes.set j now).getD i 0 = ACKED ∨
              ((m.sentTimes.set j now).getD i 0 ≠ 0 ∧
               (m.sentTimes.set j now).getD i 0 + TIMEOUT_NS ≥ now) := by
            rw [getD_set_of_ne _ _ (Ne.symm hij)]
            exact hskip
          exact ih _ hskip1 ra h

theorem sendLoop_getD_ACKED (now : Nat) (hnow : now ≠ ACKED) (idxs : List Nat)
    (m : OutboundMessage) (j : Nat)
    (h : (sendLoop now m idxs).1.sentTimes.getD j 0 = ACKED) :
    m.sentTimes.getD j 0 = ACKED := by
  induction idxs generalizing m with
  | nil => simpa [sendLoop] using h
  | cons i rest ih =>
    simp only [sendLoop] at h
    by_cases hc : m.sentTimes.getD i 0 = ACKED ∨
        (m.sentTimes.getD i 0 ≠ 0 ∧ m.sentTimes.getD i 0 + TIMEOUT_NS ≥ now)
    · rw [if_pos hc] at h; exact ih m h
    · rw [if_neg hc] at h
      by_cases hij : i = j
      · subst hij
        by_cases hlen : i < m.sentTimes.length
        · exfalso
          by_cases hrt : m.sentTimes.getD i 0 ≠ 0
          · rw [if_pos hrt] at h
            dsimp only at h
            rw [List.getD_eq_getElem?_getD, List.getElem?_set, if_pos rfl,
              if_pos hlen] at h
            exact hnow (by simpa using h)
          · rw [if_neg hrt] at h
            dsimp only at h
            have h2 := ih _ h
            rw [List.getD_eq_getElem?_getD, List.getElem?_set, if_pos rfl,
              if_pos hlen] at h2
            exact hnow (by simpa using h2)
        · have hset : (m.sentTimes.set i now).getD i 0 = m.sentTimes.getD i 0 := by
            simp [List.getD_eq_getElem?_getD, List.getElem?_set, hlen,
              List.getElem?_eq_none (Nat.le_of_not_lt hlen)]
          by_cases hrt : m.sentTimes.getD i 0 ≠ 0
          · rw [if_pos hrt] at h
            dsimp only at h
            rw [hset] at h
            exact h
          · rw [if_neg hrt] at h
            dsimp only at h
            have h2 := ih _ h
            rw [hset] at h2
            exact h2
      · by_cases hrt : m.sentTimes.getD i 0 ≠ 0
        · rw [if_pos hrt] at h
          dsimp only at h
          rw [getD_set_of_ne _ _ hij] at h
          exact h
        · rw [if_neg hrt] at h
          dsimp only at h
          have h2 := ih _ h
          rw [getD_set_of_ne _ _ hij] at h2
          exact h2

theorem ackBits_foldl_length (sv : Nat) (idxs : List Nat) (st : List Nat)
    (na : Nat) :
    (idxs.foldl (ackBitStep sv) (st, na)).1.length = st.length := by
  induction idxs generalizing st na with
  | nil => simp
  | cons i rest ih =>
    rw [List.foldl_cons]
    by_cases hb : sv.testBit i
    · simp only [ackBitStep, if_pos hb]
      rw [ih]
      simp [List.length_set]
    · simp only [ackBitStep, if_neg hb]
      exact ih st na

theorem ackBits_foldl_getD_ACKED (sv : Nat) (idxs : List Nat) (st : List Nat)
    (na j : Nat)
    (h : (idxs.foldl (ackBitStep sv) (st, na)).1.getD j 0 = ACKED) :
    st.getD j 0 = ACKED ∨ (0 < j ∧ sv.testBit (j - 1) = true) := by
  induction idxs generalizing st na with
  | nil => left; simpa using h
  | cons i rest ih =>
    rw [List.foldl_cons] at h
    by_cases hb : sv.testBit i
    · simp only [ackBitStep, if_pos hb] at h
      rcases ih _ _ h with h1 | h1
      · by_cases hij : i + 1 = j
        · right
          refine ⟨by omega, ?_⟩
          have : j - 1 = i := by omega
          rw [this]
          exact hb
        · left
          rw [getD_set_of_ne _ _ hij] at h1
          exact h1
      · right; exact h1
    · simp only [ackBitStep, if_neg hb] at h
      exact ih _ _ h

theorem ackBits_foldl_snd_le (sv : Nat) (idxs : List Nat) (st : List Nat)
    (na : Nat) :
    (idxs.foldl (ackBitStep sv) (st, na)).2 ≤ na + idxs.length := by
  induction idxs generalizing st na with
  | nil => simp
  | cons i rest ih =>
    rw [List.foldl_cons]
    by_cases hb : sv.testBit i
    · simp only [ackBitStep, if_pos hb]
      have := ih (st.set (i + 1) ACKED) (na + 1)
      simp only [List.length_cons]
      omega
    · simp only [ackBitStep, if_neg hb]
      have := ih st na
      simp only [List.length_cons]
      omega

theorem applyAckBits_length (sv : Nat) (st : List Nat) (na : Nat) :
    (applyAckBits sv st na).1.length = st.length :=
  ackBits_foldl_length sv _ st na

theorem applyAckBits_getD_ACKED (sv : Nat) (st : List Nat) (na j : Nat)
    (h : (applyAckBits sv st na).1.getD j 0 = ACKED) :
    st.getD j 0 = ACKED ∨ (0 < j ∧ sv.testBit (j - 1) = true) :=
  ackBits_foldl_getD_ACKED sv _ st na j h

theorem applyAckBits_snd_le (sv : Nat) (st : List Nat) (na : Nat) :
    (applyAckBits sv st na).2 ≤ na + (st.length - 1) := by
  have := ackBits_foldl_snd_le sv (List.range (st.length - 1)) st na
  simpa [List.length_range] using this

theorem orFold_testBit (g : Nat → Bool) (n j : Nat) :
    (((List.range n).foldl
        (fun acc i => if g i then acc ||| (1 <<< i) else acc) 0).testBit j)
      = (decide (j < n) && g j) := by
  induction n with
  | zero => simp [Nat.zero_testBit]
  | succ n ih =>
    rw [List.range_succ, List.foldl_append, List.foldl_cons, List.foldl_nil]
    by_cases hg : g n
    · rw [if_pos hg, Nat.testBit_or, ih, Nat.one_shiftLeft, Nat.testBit_two_pow]
      by_cases hj : j = n
      · subst hj
        simp [hg]
      · have h1 : (decide (n = j)) = false := by simp [Ne.symm hj]
        rw [h1]
        have h2 : decide (j < n) = decide (j < n + 1) :=
          decide_eq_decide.mpr (by omega)
        rw [Bool.or_false, h2]
    · rw [if_neg hg, ih]
      by_cases hj : j = n
      · subst hj
        simp [hg]
      · have h2 : decide (j < n) = decide (j < n + 1) :=
          decide_eq_decide.mpr (by omega)
        rw [h2]

theorem processReceivedAck_fst_advance (m : OutboundMessage)
    (ack : AckResponse) (now : Nat)
    (hbuf : m.sendBuffer.isSome)
    (hlo : m.firstMissingFrag ≤ ack.firstMissingFrag)
    (hhi : ack.firstMissingFrag ≤ m.totalFrags)
    (hring : ack.firstMissingFrag ≤ m.firstMissingFrag + m.sentTimes.length) :
    (m.processReceivedAck ack now).1 =
      (OutboundMessage.send
        { m with
          sentTimes := (applyAckBits ack.stagingVector
            (ringAdvance 0 m.sentTimes
              (ack.firstMissingFrag - m.firstMissingFrag))
            ack.firstMissingFrag).1,
          firstMissingFrag := ack.firstMissingFrag,
          numAcked := (applyAckBits ack.stagingVector
            (ringAdvance 0 m.sentTimes
              (ack.firstMissingFrag - m.firstMissingFrag))
            ack.firstMissingFrag).2 } now).1 := by
  have h0 : m.sendBuffer.isNone = false := by
    rcases hb : m.sendBuffer with _ | v
    · rw [hb] at hbuf; simp at hbuf
    · simp
  simp only [OutboundMessage.processReceivedAck, h0, Bool.false_eq_true,
    if_false]
  rw [if_neg (by omega : ¬ ack.firstMissingFrag < m.firstMissingFrag),
    if_neg (by omega : ¬ m.totalFrags < ack.firstMissingFrag),
    if_neg (by omega :
      ¬ m.firstMissingFrag + m.sentTimes.length < ack.firstMissingFrag)]

theorem sendAckVector_testBit (m : InboundMessage) (j : Nat) :
    m.sendAckVector.testBit j =
      (decide (j < m.dataStagingRing.length) &&
       (m.dataStagingRing.getD j none).isSome) := by
  unfold InboundMessage.sendAckVector
  exact orFold_testBit (fun i => (m.dataStagingRing.getD i none).isSome) _ j

theorem sendLoop_retransmit_last (now : Nat) (idxs : List Nat)
    (m : OutboundMessage) (hnd : idxs.Nodup) :
    ∀ l1 x l2, (sendLoop now m idxs).2 = l1 ++ x :: l2 →
      m.sentTimes.getD (x.1 - m.firstMissingFrag) 0 ≠ 0 → l2 = [] := by
  revert hnd
  induction idxs generalizing m with
  | nil =>
    intro _ l1 x l2 heq _
    rw [sendLoop] at heq
    exact absurd heq.symm (List.append_ne_nil_of_right_ne_nil l1 (by simp))
  | cons i rest ih =>
    intro hnd l1 x l2 heq hx
    have hnd' : rest.Nodup := (List.nodup_cons.mp hnd).2
    have hinotin : i ∉ rest := (List.nodup_cons.mp hnd).1
    simp only [sendLoop] at heq
    by_cases hc : m.sentTimes.getD i 0 = ACKED ∨
        (m.sentTimes.getD i 0 ≠ 0 ∧ m.sentTimes.getD i 0 + TIMEOUT_NS ≥ now)
    · rw [if_pos hc] at heq
      exact ih m hnd' l1 x l2 heq hx
    · rw [if_neg hc] at heq
      by_cases hrt : m.sentTimes.getD i 0 ≠ 0
      · rw [if_pos hrt] at heq
        dsimp only at heq
        cases l1 with
        | nil =>
          simp only [List.nil_append, List.cons.injEq] at heq
          exact heq.2.symm
        | cons a l1' => exact absurd heq (by simp)
      · rw [if_neg hrt] at heq
        dsimp only at heq
        cases l1 with
        | nil =>
          simp only [List.nil_append, List.cons.injEq] at heq
          exfalso
          apply hrt
          have hx1 : x.1 = m.firstMissingFrag + i := by rw [← heq.1]
          rw [hx1, Nat.add_sub_cancel_left] at hx
          exact hx
        | cons a l1' =>
          rw [List.cons_append] at heq
          have heq2 := (List.cons.inj heq).2
          have hmem : x ∈ l1' ++ x :: l2 :=
            List.mem_append_right _ (List.mem_cons_self _ _)
          rw [← heq2] at hmem
          obtain ⟨j, hj, hxj⟩ := sendLoop_mem_frag now rest _ x hmem
          have hji : j ≠ i := fun he => hinotin (he ▸ hj)
          refine ih _ hnd' l1' x l2 heq2 ?_
          dsimp only at hxj
          have hidx : x.1 - m.firstMissingFrag = j := by
            rw [hxj]
            omega
          rw [hidx] at hx ⊢
          rw [getD_set_of_ne _ _ (fun he => hji he.symm)]
          exact hx

theorem send_state (m : OutboundMessage) (now : Nat) :
    (m.send now).1.firstMissingFrag = m.firstMissingFrag ∧
    (m.send now).1.numAcked = m.numAcked ∧
    (m.send now).1.totalFrags = m.totalFrags ∧
    (m.send now).1.sendBuffer = m.sendBuffer ∧
    (m.send now).1.sentTimes.length = m.sentTimes.length :=
  ⟨(sendLoop_state now _ m).1, (sendLoop_state now _ m).2.1,
   (sendLoop_state now _ m).2.2.1, (sendLoop_state now _ m).2.2.2,
   sendLoop_sentTimes_length now _ m⟩

-- --- Claim theorems ---

/-- C4: every fragment OutboundMessage::send transmits lies in
[firstMissingFrag, stop) with stop = min(totalFrags,
numAcked + WINDOW_SIZE, firstMissingFrag + MAX_STAGING_FRAGMENTS + 1);
a fragment already sent and still within TIMEOUT_NS of now is skipped;
and after one retransmitted (previously sent, timed-out) fragment the
call transmits nothing further. -/
theorem C4_send_window (m : OutboundMessage) (now : Nat) :
    (∀ x ∈ (m.send now).2, m.firstMissingFrag ≤ x.1 ∧ x.1 < m.stop) ∧
    (∀ i, m.sentTimes.getD i 0 ≠ 0 →
        m.sentTimes.getD i 0 + TIMEOUT_NS ≥ now →
        ∀ ra, (m.firstMissingFrag + i, ra) ∉ (m.send now).2) ∧
    (∀ l1 x l2, (m.send now).2 = l1 ++ x :: l2 →
        m.sentTimes.getD (x.1 - m.firstMissingFrag) 0 ≠ 0 → l2 = []) := by
  refine ⟨?_, ?_, ?_⟩
  · intro x hx
    obtain ⟨j, hj, hxj⟩ :=
      sendLoop_mem_frag now (List.range (m.stop - m.firstMissingFrag)) m x hx
    rw [List.mem_range] at hj
    omega
  · intro i h1 h2 ra
    exact sendLoop_skip_not_mem now _ m i (Or.inr ⟨h1, h2⟩) ra
  · intro l1 x l2 heq hx
    exact sendLoop_retransmit_last now _ m
      (List.nodup_range _) l1 x l2 heq hx

/-- C4 witness: a concrete send call.  The message has fragment 0
acknowledged-pending (sent at time 50, still within TIMEOUT_NS of
now = 60), so fragment 0 is skipped while fragments 1 and 2 are sent,
both within [firstMissingFrag, stop). -/
theorem C4_send_window_witness :
    (∀ x ∈ (OutboundMessage.send
        { sendBuffer := some 250, firstMissingFrag := 0, totalFrags := 3,
          packetsSinceAckReq := 0,
          sentTimes := (List.replicate sentTimesRingLength 0).set 0 50,
          numAcked := 0 } 60).2,
      (0 : Nat) ≤ x.1 ∧ x.1 < OutboundMessage.stop
        { sendBuffer := some 250, firstMissingFrag := 0, totalFrags := 3,
          packetsSinceAckReq := 0,
          sentTimes := (List.replicate sentTimesRingLength 0).set 0 50,
          numAcked := 0 }) ∧
    (∀ ra, ((0 : Nat), ra) ∉ (OutboundMessage.send
        { sendBuffer := some 250, firstMissingFrag := 0, totalFrags := 3,
          packetsSinceAckReq := 0,
          sentTimes := (List.replicate sentTimesRingLength 0).set 0 50,
          numAcked := 0 } 60).2) :=
  ⟨(C4_send_window _ 60).1,
   (C4_send_window _ 60).2.1 0 (by decide) (by decide)⟩

/-- C1: for an OutboundMessage in a reachable configuration, (a) a
fragment whose sentTimes entry is ACKED is never transmitted again by
send(); (b) under an honest ACK (each selective-ack bit acknowledges a
fragment whose sentTimes entry shows it was sent, which is what the
peer's sendAck produces in every reachable exchange), processReceivedAck
never marks a never-sent entry (0 since the last clear/advance) ACKED:
every ACKED entry afterwards traces back to a nonzero pre-state entry;
and (c) numAcked is at most firstMissingFrag plus the sent-times ring
length after processReceivedAck, after send, and after clear. -/
theorem C1_outbound_invariants (m : OutboundMessage) (ack : AckResponse)
    (now : Nat)
    (hbuf : m.sendBuffer.isSome = true)
    (hlo : m.firstMissingFrag ≤ ack.firstMissingFrag)
    (hhi : ack.firstMissingFrag ≤ m.totalFrags)
    (hring : ack.firstMissingFrag ≤ m.firstMissingFrag + m.sentTimes.length)
    (hhonest : ∀ i, ack.stagingVector.testBit i = true →
        m.sentTimes.getD
          (ack.firstMissingFrag - m.firstMissingFrag + 1 + i) 0 ≠ 0)
    (hnow : now ≠ ACKED)
    (hinv : m.numAcked ≤ m.firstMissingFrag + m.sentTimes.length) :
    (∀ i ra, m.sentTimes.getD i 0 = ACKED →
        (m.firstMissingFrag + i, ra) ∉ (m.send now).2) ∧
    (∀ j, (m.processReceivedAck ack now).1.sentTimes.getD j 0 = ACKED →
        m.sentTimes.getD
          (j + (ack.firstMissingFrag - m.firstMissingFrag)) 0 ≠ 0) ∧
    ((m.processReceivedAck ack now).1.numAcked ≤
        (m.processReceivedAck ack now).1.firstMissingFrag +
        (m.processReceivedAck ack now).1.sentTimes.length) ∧
    ((m.send now).1.numAcked ≤
        (m.send now).1.firstMissingFrag +
        (m.send now).1.sentTimes.length) ∧
    (m.clear.numAcked ≤
        m.clear.firstMissingFrag + m.clear.sentTimes.length) := by
  have hackedne : ACKED ≠ 0 := by decide
  refine ⟨?_, ?_, ?_, ?_, ?_⟩
  · intro i ra hA
    exact sendLoop_skip_not_mem now _ m i (Or.inl hA) ra
  · intro j hA
    rw [processReceivedAck_fst_advance m ack now hbuf hlo hhi hring] at hA
    have h1 := sendLoop_getD_ACKED now hnow _ _ j hA
    dsimp only at h1
    have h2 := applyAckBits_getD_ACKED _ _ _ j h1
    rcases h2 with h2 | ⟨hj, hbit⟩
    · rw [ringAdvance_getD] at h2
      by_cases hjk :
          j < m.sentTimes.length - (ack.firstMissingFrag - m.firstMissingFrag)
      · rw [if_pos hjk] at h2
        rw [h2]
        exact hackedne
      · rw [if_neg hjk] at h2
        exact absurd h2.symm hackedne
    · have h3 := hhonest (j - 1) hbit
      have he : ack.firstMissingFrag - m.firstMissingFrag + 1 + (j - 1) =
          j + (ack.firstMissingFrag - m.firstMissingFrag) := by omega
      rw [he] at h3
      exact h3
  · rw [processReceivedAck_fst_advance m ack now hbuf hlo hhi hring]
    rw [(send_state _ now).1, (send_state _ now).2.1,
      (send_state _ now).2.2.2.2]
    dsimp only
    have hst := applyAckBits_snd_le ack.stagingVector
      (ringAdvance 0 m.sentTimes (ack.firstMissingFrag - m.firstMissingFrag))
      ack.firstMissingFrag
    rw [applyAckBits_length, ringAdvance_length] at *
    omega
  · rw [(send_state m now).1, (send_state m now).2.1,
      (send_state m now).2.2.2.2]
    exact hinv
  · simp [OutboundMessage.clear]

/-- C1 witness: a concrete message with fragments 0 and 1 sent at time
100 and fragment 2 marked ACKED, processing an honest ACK that advances
firstMissingFrag to 1 with an empty staging vector at time 200. -/
theorem C1_outbound_invariants_witness :
    (∀ ra, ((0 : Nat) + 2, ra) ∉
      (OutboundMessage.send
        { sendBuffer := some 250, firstMissingFrag := 0, totalFrags := 3,
          packetsSinceAckReq := 0,
          sentTimes :=
            (((List.replicate sentTimesRingLength 0).set 0 100).set 1
              100).set 2 ACKED,
          numAcked := 0 } 200).2) ∧
    ((OutboundMessage.processReceivedAck
        { sendBuffer := some 250, firstMissingFrag := 0, totalFrags := 3,
          packetsSinceAckReq := 0,
          sentTimes :=
            (((List.replicate sentTimesRingLength 0).set 0 100).set 1
              100).set 2 ACKED,
          numAcked := 0 }
        { firstMissingFrag := 1, stagingVector := 0 } 200).1.numAcked ≤
      (OutboundMessage.processReceivedAck
        { sendBuffer := some 250, firstMissingFrag := 0, totalFrags := 3,
          packetsSinceAckReq := 0,
          sentTimes :=
            (((List.replicate sentTimesRingLength 0).set 0 100).set 1
              100).set 2 ACKED,
          numAcked := 0 }
        { firstMissingFrag := 1, stagingVector := 0 } 200).1.firstMissingFrag +
      (OutboundMessage.processReceivedAck
        { sendBuffer := some 250, firstMissingFrag := 0, totalFrags := 3,
          packetsSinceAckReq := 0,
          sentTimes :=
            (((List.replicate sentTimesRingLength 0).set 0 100).set 1
              100).set 2 ACKED,
          numAcked := 0 }
        { firstMissingFrag := 1, stagingVector := 0 } 200).1.sentTimes.length) :=
  ⟨fun ra =>
    (C1_outbound_invariants
      { sendBuffer := some 250, firstMissingFrag := 0, totalFrags := 3,
        packetsSinceAckReq := 0,
        sentTimes :=
          (((List.replicate sentTimesRingLength 0).set 0 100).set 1
            100).set 2 ACKED,
        numAcked := 0 }
      { firstMissingFrag := 1, stagingVector := 0 } 200 (by decide)
      (by decide) (by decide) (by decide)
      (by intro i hb; simp [Nat.zero_testBit] at hb) (by decide)
      (by decide)).1 2 ra (by decide),
   (C1_outbound_invariants
      { sendBuffer := some 250, firstMissingFrag := 0, totalFrags := 3,
        packetsSinceAckReq := 0,
        sentTimes :=
          (((List.replicate sentTimesRingLength 0).set 0 100).set 1
            100).set 2 ACKED,
        numAcked := 0 }
      { firstMissingFrag := 1, stagingVector := 0 } 200 (by decide)
      (by decide) (by decide) (by decide)
      (by intro i hb; simp [Nat.zero_testBit] at hb) (by decide)
      (by decide)).2.2.1⟩

/-- C2 counterexample: a CLIENT_TO_SERVER packet whose serverSessionHint
0 is in range of a one-session table whose token 42 does not match the
packet's token 7, but whose payloadType is SESSION_OPEN: the dispatcher
opens a new session instead of replying BAD_SESSION, refuting the
"regardless of the packet's payload type" part of the claim. -/
theorem C2_counterexample :
    (tryProcessPacket [42] 0
      { sessionToken := 7, rpcId := 3, clientSessionHint := 1,
        serverSessionHint := 0, fragNumber := 0, totalFrags := 1,
        requestAck := false, pleaseDrop := false, channelId := 2,
        direction := Direction.CLIENT_TO_SERVER,
        payloadType := PayloadType.SESSION_OPEN } =
      DispatchResult.openNewSession) ∧
    (DispatchResult.isBadSessionReply
      (tryProcessPacket [42] 0
        { sessionToken := 7, rpcId := 3, clientSessionHint := 1,
          serverSessionHint := 0, fragNumber := 0, totalFrags := 1,
          requestAck := false, pleaseDrop := false, channelId := 2,
          direction := Direction.CLIENT_TO_SERVER,
          payloadType := PayloadType.SESSION_OPEN }) = false) := by
  decide

/-- C2 amended: a CLIENT_TO_SERVER packet whose serverSessionHint is in
range of the server session table but whose sessionToken does not match
that session's token gets a BAD_SESSION reply echoing the client's
hints, channel id and rpcId, unless its payloadType is SESSION_OPEN, in
which case a new session is opened instead. -/
theorem C2_bad_session_reply (serverTokens : List Nat) (nClient : Nat)
    (h : Header)
    (hdrop : h.pleaseDrop = false)
    (hdir : h.direction = Direction.CLIENT_TO_SERVER)
    (hrange : h.serverSessionHint < serverTokens.length)
    (htok : serverTokens.getD h.serverSessionHint 0 ≠ h.sessionToken)
    (hpt : h.payloadType ≠ PayloadType.SESSION_OPEN) :
    tryProcessPacket serverTokens nClient h =
      DispatchResult.replyBadSession
        { sessionToken := h.sessionToken,
          rpcId := h.rpcId,
          clientSessionHint := h.clientSessionHint,
          serverSessionHint := h.serverSessionHint,
          channelId := h.channelId,
          payloadType := PayloadType.BAD_SESSION,
          direction := Direction.SERVER_TO_CLIENT,
          fragNumber := 0, totalFrags := 0,
          requestAck := false, pleaseDrop := false } := by
  unfold tryProcessPacket
  rw [if_neg (by simp [hdrop]), if_pos hdir,
    if_neg (fun hc => htok hc.2), if_neg hpt]

/-- C2 witness: a DATA packet with in-range hint and mismatching token
gets the echoing BAD_SESSION reply. -/
theorem C2_bad_session_reply_witness :
    tryProcessPacket [42] 0
      { sessionToken := 7, rpcId := 3, clientSessionHint := 1,
        serverSessionHint := 0, fragNumber := 0, totalFrags := 1,
        requestAck := false, pleaseDrop := false, channelId := 2,
        direction := Direction.CLIENT_TO_SERVER,
        payloadType := PayloadType.DATA } =
      DispatchResult.replyBadSession
        { sessionToken := 7, rpcId := 3, clientSessionHint := 1,
          serverSessionHint := 0, channelId := 2,
          payloadType := PayloadType.BAD_SESSION,
          direction := Direction.SERVER_TO_CLIENT,
          fragNumber := 0, totalFrags := 0,
          requestAck := false, pleaseDrop := false } :=
  C2_bad_session_reply [42] 0 _ (by decide) (by decide) (by decide)
    (by decide) (by decide)

/-- C3 counterexample: a DATA fragment with requestAck set whose
header.totalFrags (3) differs from the message's totalFrags (2) is
discarded by the early return at lines 650-654 and no ACK is emitted,
refuting the "including when header.totalFrags differs" part of the
claim. -/
theorem C3_counterexample :
    (InboundMessage.processReceivedData
      { totalFrags := 2, firstMissingFrag := 0,
        dataStagingRing := List.replicate MAX_STAGING_FRAGMENTS none,
        dataBuffer := [] }
      { header := { sessionToken := 0, rpcId := 0, clientSessionHint := 0,
                    serverSessionHint := 0, fragNumber := 0, totalFrags := 3,
                    requestAck := true, pleaseDrop := false, channelId := 0,
                    direction := Direction.SERVER_TO_CLIENT,
                    payloadType := PayloadType.DATA },
        body := PacketBody.data [9] }
      { sessionToken := 0, rpcId := 0, clientSessionHint := 0,
        serverSessionHint := 0, fragNumber := 0, totalFrags := 0,
        requestAck := false, pleaseDrop := false, channelId := 0,
        direction := Direction.SERVER_TO_CLIENT,
        payloadType := PayloadType.DATA }).2.1 = [] := by
  decide

/-- C3 amended: a packet with header.requestAck set causes exactly one
ACK to be emitted before processReceivedData returns whenever
header.totalFrags matches the message's totalFrags; when they differ the
packet is discarded without any ACK, the state is unchanged, and
completion is still reported if the message was already complete. -/
theorem C3_requestAck_emits_ack (m : InboundMessage) (p : Packet)
    (filled : Header) (hr : p.header.requestAck = true) :
    (p.header.totalFrags = m.totalFrags →
      (m.processReceivedData p filled).2.1 =
        [(m.processReceivedData p filled).1.sendAck filled]) ∧
    (p.header.totalFrags ≠ m.totalFrags →
      (m.processReceivedData p filled).2.1 = [] ∧
      (m.processReceivedData p filled).1 = m ∧
      (m.processReceivedData p filled).2.2 =
        (m.firstMissingFrag == m.totalFrags)) := by
  constructor
  · intro hm
    unfold InboundMessage.processReceivedData
    rw [if_neg (by simp [hm])]
    simp only [hr, if_pos]
  · intro hm
    unfold InboundMessage.processReceivedData
    rw [if_pos hm]
    exact ⟨rfl, rfl, rfl⟩

/-- C3 witness: a matching in-order fragment with requestAck set emits
exactly the post-state's ACK. -/
theorem C3_requestAck_emits_ack_witness :
    (InboundMessage.processReceivedData
      { totalFrags := 2, firstMissingFrag := 0,
        dataStagingRing := List.replicate MAX_STAGING_FRAGMENTS none,
        dataBuffer := [] }
      { header := { sessionToken := 0, rpcId := 0, clientSessionHint := 0,
                    serverSessionHint := 0, fragNumber := 0, totalFrags := 2,
                    requestAck := true, pleaseDrop := false, channelId := 0,
                    direction := Direction.SERVER_TO_CLIENT,
                    payloadType := PayloadType.DATA },
        body := PacketBody.data [9] }
      { sessionToken := 0, rpcId := 0, clientSessionHint := 0,
        serverSessionHint := 0, fragNumber := 0, totalFrags := 0,
        requestAck := false, pleaseDrop := false, channelId := 0,
        direction := Direction.SERVER_TO_CLIENT,
        payloadType := PayloadType.DATA }).2.1 =
      [(InboundMessage.processReceivedData
        { totalFrags := 2, firstMissingFrag := 0,
          dataStagingRing := List.replicate MAX_STAGING_FRAGMENTS none,
          dataBuffer := [] }
        { header := { sessionToken := 0, rpcId := 0, clientSessionHint := 0,
                      serverSessionHint := 0, fragNumber := 0, totalFrags := 2,
                      requestAck := true, pleaseDrop := false, channelId := 0,
                      direction := Direction.SERVER_TO_CLIENT,
                      payloadType := PayloadType.DATA },
          body := PacketBody.data [9] }
        { sessionToken := 0, rpcId := 0, clientSessionHint := 0,
          serverSessionHint := 0, fragNumber := 0, totalFrags := 0,
          requestAck := false, pleaseDrop := false, channelId := 0,
          direction := Direction.SERVER_TO_CLIENT,
          payloadType := PayloadType.DATA }).1.sendAck
        { sessionToken := 0, rpcId := 0, clientSessionHint := 0,
          serverSessionHint := 0, fragNumber := 0, totalFrags := 0,
          requestAck := false, pleaseDrop := false, channelId := 0,
          direction := Direction.SERVER_TO_CLIENT,
          payloadType := PayloadType.DATA }] :=
  (C3_requestAck_emits_ack _ _ _ (by decide)).1 (by decide)

/-- C5: the packet InboundMessage::sendAck transmits carries payloadType
ACK, an AckResponse whose firstMissingFrag is the message's current
firstMissingFrag, and a stagingVector whose bit i is set exactly when
staging-ring slot i holds a payload. -/
theorem C5_sendAck_contents (m : InboundMessage) (filled : Header) :
    (m.sendAck filled).1.payloadType = PayloadType.ACK ∧
    (m.sendAck filled).2.firstMissingFrag = m.firstMissingFrag ∧
    ∀ i, i < m.dataStagingRing.length →
      (m.sendAck filled).2.stagingVector.testBit i =
        (m.dataStagingRing.getD i none).isSome := by
  refine ⟨rfl, rfl, ?_⟩
  intro i hi
  show m.sendAckVector.testBit i = _
  rw [sendAckVector_testBit]
  simp [hi]

/-- C5 witness: an ACK for a message whose staging ring holds a payload
in slot 1 only; bit 1 is set and bit 0 is clear. -/
theorem C5_sendAck_contents_witness :
    ((InboundMessage.sendAck
      { totalFrags := 5, firstMissingFrag := 1,
        dataStagingRing :=
          (List.replicate MAX_STAGING_FRAGMENTS none).set 1 (some [7]),
        dataBuffer := [[3]] }
      { sessionToken := 0, rpcId := 0, clientSessionHint := 0,
        serverSessionHint := 0, fragNumber := 0, totalFrags := 0,
        requestAck := false, pleaseDrop := false, channelId := 0,
        direction := Direction.SERVER_TO_CLIENT,
        payloadType := PayloadType.DATA }).1.payloadType =
      PayloadType.ACK) ∧
    ((InboundMessage.sendAck
      { totalFrags := 5, firstMissingFrag := 1,
        dataStagingRing :=
          (List.replicate MAX_STAGING_FRAGMENTS none).set 1 (some [7]),
        dataBuffer := [[3]] }
      { sessionToken := 0, rpcId := 0, clientSessionHint := 0,
        serverSessionHint := 0, fragNumber := 0, totalFrags := 0,
        requestAck := false, pleaseDrop := false, channelId := 0,
        direction := Direction.SERVER_TO_CLIENT,
        payloadType := PayloadType.DATA }).2.stagingVector.testBit 1 =
      ((((List.replicate MAX_STAGING_FRAGMENTS none).set 1
          (some [7])).getD 1 none).isSome)) :=
  ⟨(C5_sendAck_contents _ _).1,
   (C5_sendAck_contents
     { totalFrags := 5, firstMissingFrag := 1,
       dataStagingRing :=
         (List.replicate MAX_STAGING_FRAGMENTS none).set 1 (some [7]),
       dataBuffer := [[3]] }
     { sessionToken := 0, rpcId := 0, clientSessionHint := 0,
       serverSessionHint := 0, fragNumber := 0, totalFrags := 0,
       requestAck := false, pleaseDrop := false, channelId := 0,
       direction := Direction.SERVER_TO_CLIENT,
       payloadType := PayloadType.DATA }).2.2 1 (by decide)⟩

/-- C8: re-delivering a DATA fragment that was already incorporated
(fragNumber below firstMissingFrag, or already occupying its
staging-ring slot) leaves the reassembled buffer's contents unchanged. -/
theorem C8_redelivery_preserves_buffer (m : InboundMessage) (p : Packet)
    (filled : Header)
    (h : p.header.fragNumber < m.firstMissingFrag ∨
      (m.firstMissingFrag < p.header.fragNumber ∧
       ((m.dataStagingRing.getD
          (p.header.fragNumber - m.firstMissingFrag - 1) none).isSome))) :
    (m.processReceivedData p filled).1.dataBuffer = m.dataBuffer := by
  unfold InboundMessage.processReceivedData
  by_cases hm : p.header.totalFrags ≠ m.totalFrags
  · rw [if_pos hm]
  · rw [if_neg hm]
    have hne : ¬ p.header.fragNumber = m.firstMissingFrag := by omega
    dsimp only
    rw [if_neg hne]
    rcases h with h | ⟨h1, h2⟩
    · rw [if_neg (by omega : ¬ m.firstMissingFrag < p.header.fragNumber)]
    · rw [if_pos h1]
      by_cases hgap :
          MAX_STAGING_FRAGMENTS < p.header.fragNumber - m.firstMissingFrag
      · rw [if_pos hgap]
      · rw [if_neg hgap, if_pos h2]

/-- C8 witness: fragment 0 re-delivered after firstMissingFrag advanced
to 1 leaves the buffer untouched. -/
theorem C8_redelivery_preserves_buffer_witness :
    (InboundMessage.processReceivedData
      { totalFrags := 2, firstMissingFrag := 1,
        dataStagingRing := List.replicate MAX_STAGING_FRAGMENTS none,
        dataBuffer := [[3]] }
      { header := { sessionToken := 0, rpcId := 0, clientSessionHint := 0,
                    serverSessionHint := 0, fragNumber := 0, totalFrags := 2,
                    requestAck := false, pleaseDrop := false, channelId := 0,
                    direction := Direction.SERVER_TO_CLIENT,
                    payloadType := PayloadType.DATA },
        body := PacketBody.data [3] }
      { sessionToken := 0, rpcId := 0, clientSessionHint := 0,
        serverSessionHint := 0, fragNumber := 0, totalFrags := 0,
        requestAck := false, pleaseDrop := false, channelId := 0,
        direction := Direction.SERVER_TO_CLIENT,
        payloadType := PayloadType.DATA }).1.dataBuffer = [[3]] :=
  C8_redelivery_preserves_buffer _ _ _ (Or.inl (by decide))

/-- C9: clientSend truncates a non-empty response buffer to length zero
before starting the RPC (lines 54-57), so the reply is never appended
after stale bytes. -/
theorem C9_clientSend_truncates_response (response : Buffer)
    (h : 0 < response.length) :
    (clientSendPrepareResponse response).length = 0 := by
  unfold clientSendPrepareResponse Buffer.truncateFront
  rw [if_pos (by omega : response.length ≠ 0)]
  simp

/-- C9 witness: a three-byte stale response buffer is emptied. -/
theorem C9_clientSend_truncates_response_witness :
    (0 : Nat) < ([1, 2, 3] : Buffer).length ∧
    (clientSendPrepareResponse [1, 2, 3]).length = 0 :=
  ⟨by decide, C9_clientSend_truncates_response [1, 2, 3] (by decide)⟩

/-- C10: processReceivedAck while no send is active (sendBuffer null)
returns false, changes nothing, and transmits nothing: send() is not
reached (lines 890-891). -/
theorem C10_processReceivedAck_inactive (m : OutboundMessage)
    (ack : AckResponse) (now : Nat) (h : m.sendBuffer = none) :
    m.processReceivedAck ack now = (m, [], false) := by
  unfold OutboundMessage.processReceivedAck
  rw [if_pos (by simp [h])]

/-- C10 witness: an idle outbound message ignores an ACK entirely. -/
theorem C10_processReceivedAck_inactive_witness :
    OutboundMessage.processReceivedAck
      { sendBuffer := none, firstMissingFrag := 0, totalFrags := 0,
        packetsSinceAckReq := 0,
        sentTimes := List.replicate sentTimesRingLength 0, numAcked := 0 }
      { firstMissingFrag := 1, stagingVector := 3 } 5 =
      ({ sendBuffer := none, firstMissingFrag := 0, totalFrags := 0,
         packetsSinceAckReq := 0,
         sentTimes := List.replicate sentTimesRingLength 0, numAcked := 0 },
       [], false) :=
  C10_processReceivedAck_inactive _ _ 5 rfl

theorem getD_set_getD {α : Type} (xs : List α) (i j : Nat) (v d : α) :
    (xs.set i v).getD j d =
      if i = j ∧ i < xs.length then v else xs.getD j d := by
  by_cases h1 : i = j
  · subst h1
    by_cases h2 : i < xs.length
    · rw [if_pos ⟨rfl, h2⟩]
      simp [List.getD_eq_getElem?_getD, List.getElem?_set, h2]
    · rw [if_neg (fun hh => h2 hh.2)]
      simp [List.getD_eq_getElem?_getD, List.getElem?_set, h2,
        List.getElem?_eq_none (Nat.le_of_not_lt h2)]
  · rw [if_neg (fun hh => h1 hh.1)]
    exact getD_set_of_ne v d h1

theorem getD_set_proj {α β : Type} (f : α → β) (xs : List α) (cid : Nat)
    (ch1 : α) (d : α) (h : f ch1 = f (xs.getD cid d)) (c : Nat) :
    f ((xs.set cid ch1).getD c d) = f (xs.getD c d) := by
  rw [getD_set_getD]
  by_cases hc : cid = c ∧ cid < xs.length
  · rw [if_pos hc, h, hc.1]
  · rw [if_neg hc]

theorem getD_out_of_range {α : Type} (xs : List α) (n : Nat) (d : α)
    (h : xs.length ≤ n) : xs.getD n d = d := by
  simp [List.getD_eq_getElem?_getD, List.getElem?_eq_none h]

theorem getD_map_of_lt {α β : Type} (f : α → β) (xs : List α) (c : Nat)
    (d1 : β) (d2 : α) (hc : c < xs.length) :
    (xs.map f).getD c d1 = f (xs.getD c d2) := by
  rw [List.getD_eq_getElem?_getD, List.getD_eq_getElem?_getD,
    List.getElem?_map, List.getElem?_eq_getElem hc]
  rfl

/-- C6 counterexample: a BAD_SESSION packet delivered to a ClientSession
whose addressed channel holds rpcId 0 while the packet carries rpcId 7
is dropped (lines 1419, 1445-1452): the token stays 99, nothing is
re-enqueued and no SESSION_OPEN request is sent, refuting the claim for
"every BAD_SESSION packet delivered". -/
theorem C6_counterexample :
    ((ClientSession.processInboundPacket
      { id := 4,
        channels := [{ state := ClientChannelState.SENDING, rpcId := 0,
                       currentRpc := some { tag := 1, requestLen := 10 },
                       inboundMsg := { totalFrags := 0, firstMissingFrag := 0,
                                       dataStagingRing := [], dataBuffer := [] },
                       outboundMsg := { sendBuffer := some 10,
                                        firstMissingFrag := 0, totalFrags := 1,
                                        packetsSinceAckReq := 0,
                                        sentTimes := [], numAcked := 0 } }],
        channelQueue := [], token := 99, serverSessionHint := 3,
        serverAddress := 77, lastActivityTime := 0 }
      { header := { sessionToken := 99, rpcId := 7, clientSessionHint := 4,
                    serverSessionHint := 3, fragNumber := 0, totalFrags := 0,
                    requestAck := false, pleaseDrop := false, channelId := 0,
                    direction := Direction.SERVER_TO_CLIENT,
                    payloadType := PayloadType.BAD_SESSION },
        body := PacketBody.empty }
      5 100).1.token = 99) ∧
    ((99 : Nat) ≠ INVALID_TOKEN) ∧
    ((ClientSession.processInboundPacket
      { id := 4,
        channels := [{ state := ClientChannelState.SENDING, rpcId := 0,
                       currentRpc := some { tag := 1, requestLen := 10 },
                       inboundMsg := { totalFrags := 0, firstMissingFrag := 0,
                                       dataStagingRing := [], dataBuffer := [] },
                       outboundMsg := { sendBuffer := some 10,
                                        firstMissingFrag := 0, totalFrags := 1,
                                        packetsSinceAckReq := 0,
                                        sentTimes := [], numAcked := 0 } }],
        channelQueue := [], token := 99, serverSessionHint := 3,
        serverAddress := 77, lastActivityTime := 0 }
      { header := { sessionToken := 99, rpcId := 7, clientSessionHint := 4,
                    serverSessionHint := 3, fragNumber := 0, totalFrags := 0,
                    requestAck := false, pleaseDrop := false, channelId := 0,
                    direction := Direction.SERVER_TO_CLIENT,
                    payloadType := PayloadType.BAD_SESSION },
        body := PacketBody.empty }
      5 100).2 = []) := by
  decide

/-- C6 amended: a BAD_SESSION packet whose channelId addresses an
existing channel and whose rpcId matches that channel's current rpcId
(which is how the server echoes them) makes the ClientSession re-enqueue
every channel's currentRpc onto the channel queue, clear its channels,
set token and serverSessionHint to the invalid sentinels, and send a new
SESSION_OPEN request to the stored server address; a BAD_SESSION packet
failing those checks is dropped. -/
theorem C6_bad_session_recovery (s : ClientSession) (p : Packet)
    (now dpf : Nat)
    (hch : p.header.channelId < s.channels.length)
    (hrpc : (s.channels.getD p.header.channelId default).rpcId =
      p.header.rpcId)
    (hpt : p.header.payloadType = PayloadType.BAD_SESSION) :
    (s.processInboundPacket p now dpf).1.channelQueue =
      s.channelQueue ++ s.channels.filterMap (fun c => c.currentRpc) ∧
    (s.processInboundPacket p now dpf).1.channels = [] ∧
    (s.processInboundPacket p now dpf).1.token = INVALID_TOKEN ∧
    (s.processInboundPacket p now dpf).1.serverSessionHint = INVALID_HINT ∧
    (s.processInboundPacket p now dpf).2 =
      [Event.sendSessionOpenReq s.serverAddress
        { sessionToken := INVALID_TOKEN, rpcId := 0,
          clientSessionHint := s.id, serverSessionHint := INVALID_HINT,
          fragNumber := 0, totalFrags := 0,
          requestAck := false, pleaseDrop := false, channelId := 0,
          direction := Direction.CLIENT_TO_SERVER,
          payloadType := PayloadType.SESSION_OPEN }] := by
  unfold ClientSession.processInboundPacket
  dsimp only
  rw [if_neg (Nat.not_le.mpr hch), if_pos hrpc, hpt]
  rw [if_neg (by intro hco; cases hco), if_neg (by intro hco; cases hco),
    if_pos rfl]
  unfold ClientSession.connect
  exact ⟨rfl, rfl, rfl, rfl, rfl⟩

/-- C6 witness: a matching BAD_SESSION packet re-enqueues the executing
RPC (tag 1), empties the channels and reconnects. -/
theorem C6_bad_session_recovery_witness :
    (ClientSession.processInboundPacket
      { id := 4,
        channels := [{ state := ClientChannelState.SENDING, rpcId := 0,
                       currentRpc := some { tag := 1, requestLen := 10 },
                       inboundMsg := { totalFrags := 0, firstMissingFrag := 0,
                                       dataStagingRing := [], dataBuffer := [] },
                       outboundMsg := { sendBuffer := some 10,
                                        firstMissingFrag := 0, totalFrags := 1,
                                        packetsSinceAckReq := 0,
                                        sentTimes := [], numAcked := 0 } }],
        channelQueue := [], token := 99, serverSessionHint := 3,
        serverAddress := 77, lastActivityTime := 0 }
      { header := { sessionToken := 99, rpcId := 0, clientSessionHint := 4,
                    serverSessionHint := 3, fragNumber := 0, totalFrags := 0,
                    requestAck := false, pleaseDrop := false, channelId := 0,
                    direction := Direction.SERVER_TO_CLIENT,
                    payloadType := PayloadType.BAD_SESSION },
        body := PacketBody.empty }
      5 100).1.channelQueue = [{ tag := 1, requestLen := 10 }] :=
  ((C6_bad_session_recovery _ _ 5 100 (by decide) (by decide)
    (by decide)).1).trans (by decide)

theorem serverDataCh_rpcId (s : ServerSession) (cid : Nat) (p : Packet)
    (now : Nat) (c : Nat) :
    (((s.processReceivedDataCh cid p now).1.channels.getD c default).rpcId =
      (s.channels.getD c default).rpcId) ∧
    ((s.processReceivedDataCh cid p now).1.channels.length =
      s.channels.length) := by
  unfold ServerSession.processReceivedDataCh
  generalize hch : s.channels.getD cid default = ch
  dsimp only
  cases hst : ch.state with
  | IDLE => exact ⟨rfl, rfl⟩
  | RECEIVING =>
    dsimp only
    refine ⟨?_, by simp [List.length_set]⟩
    exact getD_set_proj ServerChannel.rpcId s.channels cid _ default
      (by rw [hch]) c
  | PROCESSING =>
    by_cases hra : p.header.requestAck = true
    · rw [if_pos hra]
      exact ⟨rfl, rfl⟩
    · rw [if_neg hra]
      exact ⟨rfl, rfl⟩
  | SENDING_WAITING =>
    dsimp only
    refine ⟨?_, by simp [List.length_set]⟩
    exact getD_set_proj ServerChannel.rpcId s.channels cid _ default
      (by rw [hch]) c

theorem serverAckCh_rpcId (s : ServerSession) (cid : Nat) (p : Packet)
    (now : Nat) (c : Nat) :
    (((s.processReceivedAckCh cid p now).1.channels.getD c default).rpcId =
      (s.channels.getD c default).rpcId) ∧
    ((s.processReceivedAckCh cid p now).1.channels.length =
      s.channels.length) := by
  unfold ServerSession.processReceivedAckCh
  generalize hch : s.channels.getD cid default = ch
  dsimp only
  by_cases hst : ch.state = ServerChannelState.SENDING_WAITING
  · rw [if_pos hst]
    dsimp only
    refine ⟨?_, by simp [List.length_set]⟩
    exact getD_set_proj ServerChannel.rpcId s.channels cid _ default
      (by rw [hch]) c
  · rw [if_neg hst]
    exact ⟨rfl, rfl⟩

theorem getD_set_set_proj {α β : Type} (f : α → β) (xs : List α) (cid : Nat)
    (v1 v2 : α) (d : α) (h : f v2 = f v1) (h1 : f v1 = f (xs.getD cid d))
    (c : Nat) :
    f (((xs.set cid v1).set cid v2).getD c d) = f (xs.getD c d) := by
  by_cases hc : cid = c ∧ cid < xs.length
  · have e1 : ((xs.set cid v1).set cid v2).getD c d = v2 := by
      rw [getD_set_getD]
      exact if_pos ⟨hc.1, by simpa [List.length_set] using hc.2⟩
    rw [e1, h, h1, hc.1]
  · have e1 : ((xs.set cid v1).set cid v2).getD c d = (xs.set cid v1).getD c d := by
      rw [getD_set_getD]
      exact if_neg (by simpa [List.length_set] using hc)
    have e2 : (xs.set cid v1).getD c d = xs.getD c d := by
      rw [getD_set_getD]
      exact if_neg hc
    rw [e1, e2]

theorem getD_set_set_getD {α : Type} (xs : List α) (cid : Nat)
    (v1 v2 : α) (d : α) (c : Nat) :
    ((xs.set cid v1).set cid v2).getD c d =
      if cid = c ∧ cid < xs.length then v2 else xs.getD c d := by
  by_cases hc : cid = c ∧ cid < xs.length
  · rw [if_pos hc, getD_set_getD]
    exact if_pos ⟨hc.1, by simpa [List.length_set] using hc.2⟩
  · rw [if_neg hc, getD_set_getD,
      if_neg (by simpa [List.length_set] using hc), getD_set_getD, if_neg hc]

theorem clientAckCh_rpcId (s : ClientSession) (cid : Nat) (p : Packet)
    (now : Nat) (c : Nat) :
    (((s.processReceivedAckCh cid p now).1.channels.getD c default).rpcId =
      (s.channels.getD c default).rpcId) ∧
    ((s.processReceivedAckCh cid p now).1.channels.length =
      s.channels.length) := by
  unfold ClientSession.processReceivedAckCh
  generalize hch : s.channels.getD cid default = ch
  dsimp only
  by_cases hst : ch.state = ClientChannelState.SENDING
  · rw [if_pos hst]
    dsimp only
    refine ⟨?_, by simp [List.length_set]⟩
    exact getD_set_proj ClientChannel.rpcId s.channels cid _ default
      (by rw [hch]) c
  · rw [if_neg hst]
    exact ⟨rfl, rfl⟩

theorem clientDataCh_rpcId (s : ClientSession) (cid : Nat) (p : Packet)
    (now dpf : Nat) (c : Nat) :
    ((((s.processReceivedDataCh cid p now dpf).1.channels.getD c
          default).rpcId = (s.channels.getD c default).rpcId) ∨
     (((s.processReceivedDataCh cid p now dpf).1.channels.getD c
          default).rpcId =
       ((s.channels.getD c default).rpcId + 1) % 2 ^ 32)) ∧
    ((s.processReceivedDataCh cid p now dpf).1.channels.length =
      s.channels.length) := by
  unfold ClientSession.processReceivedDataCh
  generalize hch : s.channels.getD cid default = ch
  dsimp only
  by_cases h0 : ch.state = ClientChannelState.IDLE
  · rw [if_pos h0]
    exact ⟨Or.inl rfl, rfl⟩
  · rw [if_neg h0]
    by_cases hs : ch.state = ClientChannelState.SENDING
    all_goals first
      | rw [if_pos hs]
      | rw [if_neg hs]
    all_goals try dsimp only
    all_goals split
    all_goals try split
    all_goals try dsimp only
    all_goals constructor
    all_goals first
      | (rw [getD_set_set_getD]
         by_cases hcc : cid = c ∧ cid < s.channels.length
         · rw [if_pos hcc]
           try dsimp only
           rw [← hcc.1, hch]
           first
             | (left; rfl)
             | (right; rfl)
         · rw [if_neg hcc]
           left
           rfl)
      | simp [List.length_set]

theorem serverExpire_rpcId (s : ServerSession) (c : Nat)
    (hc : c < s.channels.length) :
    ((s.expire).1.channels.getD c default).rpcId =
      (s.channels.getD c default).rpcId ∨
    ((s.expire).1.channels.getD c default).rpcId = 2 ^ 32 - 1 := by
  unfold ServerSession.expire
  by_cases h1 : s.lastActivityTime = 0
  · rw [if_pos h1]
    left
    rfl
  · rw [if_neg h1]
    by_cases h2 : s.channels.any
        (fun ch => ch.state == ServerChannelState.PROCESSING) = true
    · rw [if_pos h2]
      left
      rfl
    · rw [if_neg h2]
      dsimp only
      rw [getD_map_of_lt _ s.channels c default default hc]
      by_cases h3 : (s.channels.getD c default).state = ServerChannelState.IDLE
      · rw [if_pos h3]
        left
        rfl
      · rw [if_neg h3]
        right
        rfl

theorem serverPIP_rpcId (s : ServerSession) (p : Packet) (now : Nat)
    (c : Nat) (hc : c < s.channels.length) :
    (((s.processInboundPacket p now).1.channels.getD c default).rpcId =
      (s.channels.getD c default).rpcId) ∨
    (((s.processInboundPacket p now).1.channels.getD c default).rpcId =
      ((s.channels.getD c default).rpcId + 1) % 2 ^ 32) := by
  unfold ServerSession.processInboundPacket
  dsimp only
  by_cases h1 : NUM_CHANNELS_PER_SESSION ≤ p.header.channelId
  · rw [if_pos h1]
    left
    rfl
  · rw [if_neg h1]
    by_cases h2 : (s.channels.getD p.header.channelId default).rpcId =
        p.header.rpcId
    · rw [if_pos h2]
      by_cases h3 : p.header.payloadType = PayloadType.DATA
      · rw [if_pos h3]
        left
        exact (serverDataCh_rpcId _ _ p now c).1
      · rw [if_neg h3]
        by_cases h4 : p.header.payloadType = PayloadType.ACK
        · rw [if_pos h4]
          left
          exact (serverAckCh_rpcId _ _ p now c).1
        · rw [if_neg h4]
          left
          rfl
    · rw [if_neg h2]
      by_cases h5 : ((s.channels.getD p.header.channelId default).rpcId + 1)
          % 2 ^ 32 = p.header.rpcId
      · rw [if_pos h5]
        by_cases h3 : p.header.payloadType = PayloadType.DATA
        · rw [if_pos h3]
          rw [(serverDataCh_rpcId _ _ p now c).1]
          dsimp only
          rw [getD_set_getD]
          by_cases hcc : p.header.channelId = c ∧
              p.header.channelId < s.channels.length
          · rw [if_pos hcc]
            right
            dsimp only
            rw [← h5, hcc.1]
          · rw [if_neg hcc]
            left
            rfl
        · rw [if_neg h3]
          left
          rfl
      · rw [if_neg h5]
        left
        rfl

theorem clientPSOR_of_connected (s : ClientSession) (p : Packet)
    (now dpf : Nat) (h : 0 < s.channels.length) :
    s.processSessionOpenResponse p now dpf = (s, []) := by
  unfold ClientSession.processSessionOpenResponse
  rw [if_pos h]

theorem clientPIP_rpcId (s : ClientSession) (p : Packet) (now dpf : Nat)
    (c : Nat) (hc : c < s.channels.length) :
    c < (s.processInboundPacket p now dpf).1.channels.length →
    ((((s.processInboundPacket p now dpf).1.channels.getD c
        default).rpcId = (s.channels.getD c default).rpcId) ∨
     (((s.processInboundPacket p now dpf).1.channels.getD c
        default).rpcId =
       ((s.channels.getD c default).rpcId + 1) % 2 ^ 32)) := by
  unfold ClientSession.processInboundPacket
  dsimp only
  by_cases h1 : s.channels.length ≤ p.header.channelId
  · rw [if_pos h1]
    by_cases h2 : p.header.payloadType = PayloadType.SESSION_OPEN
    · rw [if_pos h2]
      rw [clientPSOR_of_connected _ p now dpf (by dsimp only; omega)]
      intro _
      left
      rfl
    · rw [if_neg h2]
      intro _
      left
      rfl
  · rw [if_neg h1]
    by_cases h2 : (s.channels.getD p.header.channelId default).rpcId =
        p.header.rpcId
    · rw [if_pos h2]
      by_cases h3 : p.header.payloadType = PayloadType.DATA
      · rw [if_pos h3]
        intro _
        exact (clientDataCh_rpcId _ _ p now dpf c).1
      · rw [if_neg h3]
        by_cases h4 : p.header.payloadType = PayloadType.ACK
        · rw [if_pos h4]
          intro _
          left
          exact (clientAckCh_rpcId _ _ p now c).1
        · rw [if_neg h4]
          by_cases h5 : p.header.payloadType = PayloadType.BAD_SESSION
          · rw [if_pos h5]
            unfold ClientSession.connect
            dsimp only
            intro hfalse
            exact absurd hfalse (by simp)
          · rw [if_neg h5]
            intro _
            left
            rfl
    · rw [if_neg h2]
      intro _
      left
      rfl

/-- C7 counterexample: after expire() a server channel holds rpcId
2^32 - 1 (the all-ones uint32); accepting the next RPC wraps the
channel's rpcId around to 0 - a strict decrease, refuting
"non-decreasing" over the natural order of the stored value. -/
theorem C7_counterexample :
    (((List.replicate NUM_CHANNELS_PER_SESSION
        ({ state := ServerChannelState.IDLE, rpcId := 2 ^ 32 - 1,
           currentRpc := none,
           inboundMsg := { totalFrags := 0, firstMissingFrag := 0,
                           dataStagingRing := [], dataBuffer := [] },
           outboundMsg := { sendBuffer := none, firstMissingFrag := 0,
                            totalFrags := 0, packetsSinceAckReq := 0,
                            sentTimes := [], numAcked := 0 } } :
             ServerChannel)).getD 0 default).rpcId = 2 ^ 32 - 1) ∧
    (((ServerSession.processInboundPacket
      { id := 0,
        channels := List.replicate NUM_CHANNELS_PER_SESSION
          { state := ServerChannelState.IDLE, rpcId := 2 ^ 32 - 1,
            currentRpc := none,
            inboundMsg := { totalFrags := 0, firstMissingFrag := 0,
                            dataStagingRing := [], dataBuffer := [] },
            outboundMsg := { sendBuffer := none, firstMissingFrag := 0,
                             totalFrags := 0, packetsSinceAckReq := 0,
                             sentTimes := [], numAcked := 0 } },
        token := 42, clientSessionHint := 1, clientAddress := 9,
        lastActivityTime := 3 }
      { header := { sessionToken := 42, rpcId := 0, clientSessionHint := 1,
                    serverSessionHint := 0, fragNumber := 0, totalFrags := 1,
                    requestAck := false, pleaseDrop := false, channelId := 0,
                    direction := Direction.CLIENT_TO_SERVER,
                    payloadType := PayloadType.DATA },
        body := PacketBody.data [5] }
      7).1.channels.getD 0 default).rpcId = 0) ∧
    ((0 : Nat) < 2 ^ 32 - 1) := by
  decide

/-- C7 amended: per channel, a single processInboundPacket step (server
or client) leaves the channel's rpcId unchanged or advances it by
exactly one modulo 2^32 (server: when accepting a new RPC; client: when
an RPC completes); ServerSession::expire resets every non-IDLE
channel's rpcId to 2^32 - 1, so rpcId is not non-decreasing across the
expire/wraparound boundary, as the counterexample shows. -/
theorem C7_rpcId_step (s : ServerSession) (p : Packet) (now : Nat)
    (cs : ClientSession) (cp : Packet) (cnow cdpf : Nat) (c : Nat) :
    (c < s.channels.length →
      ((((s.processInboundPacket p now).1.channels.getD c default).rpcId =
         (s.channels.getD c default).rpcId) ∨
       (((s.processInboundPacket p now).1.channels.getD c default).rpcId =
         ((s.channels.getD c default).rpcId + 1) % 2 ^ 32))) ∧
    (c < cs.channels.length →
      c < (cs.processInboundPacket cp cnow cdpf).1.channels.length →
      ((((cs.processInboundPacket cp cnow cdpf).1.channels.getD c
          default).rpcId = (cs.channels.getD c default).rpcId) ∨
       (((cs.processInboundPacket cp cnow cdpf).1.channels.getD c
          default).rpcId =
         ((cs.channels.getD c default).rpcId + 1) % 2 ^ 32))) ∧
    (c < s.channels.length →
      (((s.expire).1.channels.getD c default).rpcId =
        (s.channels.getD c default).rpcId ∨
       ((s.expire).1.channels.getD c default).rpcId = 2 ^ 32 - 1)) :=
  ⟨fun hc => serverPIP_rpcId s p now c hc,
   fun hc hc2 => clientPIP_rpcId cs cp cnow cdpf c hc hc2,
   fun hc => serverExpire_rpcId s c hc⟩

/-- C7 witness: the same concrete wraparound step, seen through the
amended theorem: the accepting step changes rpcId by exactly one modulo
2^32 (here from 2^32 - 1 to 0). -/
theorem C7_rpcId_step_witness :
    ((ServerSession.processInboundPacket
      { id := 0,
        channels := List.replicate NUM_CHANNELS_PER_SESSION
          { state := ServerChannelState.IDLE, rpcId := 2 ^ 32 - 1,
            currentRpc := none,
            inboundMsg := { totalFrags := 0, firstMissingFrag := 0,
                            dataStagingRing := [], dataBuffer := [] },
            outboundMsg := { sendBuffer := none, firstMissingFrag := 0,
                             totalFrags := 0, packetsSinceAckReq := 0,
                             sentTimes := [], numAcked := 0 } },
        token := 42, clientSessionHint := 1, clientAddress := 9,
        lastActivityTime := 3 }
      { header := { sessionToken := 42, rpcId := 0, clientSessionHint := 1,
                    serverSessionHint := 0, fragNumber := 0, totalFrags := 1,
                    requestAck := false, pleaseDrop := false, channelId := 0,
                    direction := Direction.CLIENT_TO_SERVER,
                    payloadType := PayloadType.DATA },
        body := PacketBody.data [5] }
      7).1.channels.getD 0 default).rpcId = (2 ^ 32 - 1 : Nat) ∨
    ((ServerSession.processInboundPacket
      { id := 0,
        channels := List.replicate NUM_CHANNELS_PER_SESSION
          { state := ServerChannelState.IDLE, rpcId := 2 ^ 32 - 1,
            currentRpc := none,
            inboundMsg := { totalFrags := 0, firstMissingFrag := 0,
                            dataStagingRing := [], dataBuffer := [] },
            outboundMsg := { sendBuffer := none, firstMissingFrag := 0,
                             totalFrags := 0, packetsSinceAckReq := 0,
                             sentTimes := [], numAcked := 0 } },
        token := 42, clientSessionHint := 1, clientAddress := 9,
        lastActivityTime := 3 }
      { header := { sessionToken := 42, rpcId := 0, clientSessionHint := 1,
                    serverSessionHint := 0, fragNumber := 0, totalFrags := 1,
                    requestAck := false, pleaseDrop := false, channelId := 0,
                    direction := Direction.CLIENT_TO_SERVER,
                    payloadType := PayloadType.DATA },
        body := PacketBody.data [5] }
      7).1.channels.getD 0 default).rpcId = ((2 ^ 32 - 1) + 1) % 2 ^ 32 :=
  (C7_rpcId_step
    { id := 0,
      channels := List.replicate NUM_CHANNELS_PER_SESSION
        { state := ServerChannelState.IDLE, rpcId := 2 ^ 32 - 1,
          currentRpc := none,
          inboundMsg := { totalFrags := 0, firstMissingFrag := 0,
                          dataStagingRing := [], dataBuffer := [] },
          outboundMsg := { sendBuffer := none, firstMissingFrag := 0,
                           totalFrags := 0, packetsSinceAckReq := 0,
                           sentTimes := [], numAcked := 0 } },
      token := 42, clientSessionHint := 1, clientAddress := 9,
      lastActivityTime := 3 }
    { header := { sessionToken := 42, rpcId := 0, clientSessionHint := 1,
                  serverSessionHint := 0, fragNumber := 0, totalFrags := 1,
                  requestAck := false, pleaseDrop := false, channelId := 0,
                  direction := Direction.CLIENT_TO_SERVER,
                  payloadType := PayloadType.DATA },
      body := PacketBody.data [5] }
    7
    { id := 0, channels := [], channelQueue := [], token := 0,
      serverSessionHint := 0, serverAddress := 0, lastActivityTime := 0 }
    { header := { sessionToken := 0, rpcId := 0, clientSessionHint := 0,
                  serverSessionHint := 0, fragNumber := 0, totalFrags := 0,
                  requestAck := false, pleaseDrop := false, channelId := 0,
                  direction := Direction.SERVER_TO_CLIENT,
                  payloadType := PayloadType.DATA },
      body := PacketBody.empty }
    0 100 0).1 (by decide)

end RAMCloud
